import Mathlib

set_option maxRecDepth 8000

/- Shallow embedding of the deformer-stack reconciler of the facial_autorig
   repository (src/utils.py and src/build.py).

   The host (Maya) scene graph is modelled by an explicit `Scene` value; every
   `maya.cmds` call the reconciler performs is a function on `Scene`, and a
   Python exception is modelled as an error value that keeps the mutations
   already applied and aborts the remaining work (matching CPython semantics,
   where an uncaught exception leaves earlier side effects in place).

   Modelling conventions for the host API, stated once here:
   * A deformer chain of a mesh is the list of deformer node names affecting
     it, listed downstream-first (nearest to the final shape first), which is
     the order `listHistory` reports and the order in which `list_deformers`
     returns them; creating a deformer on a mesh, or attaching an existing
     deformer to a mesh with `cmds.deformer(d, edit=True, geometry=m)`, puts
     it at the downstream end, i.e. at the head of the list.  Re-attaching a
     deformer to a geometry it already deforms is a no-op (the idempotent-skip
     contract the repository relies on); attaching via `cmds.deformer` a name
     that is not a deformer node raises.
   * `cmds.cluster` / `cmds.lattice` / `cmds.blendShape` etc. with a `name`
     that already exists silently pick a fresh name (modelled by appending
     "1"); extra helper nodes (cluster handles, lattice bases) and
     attribute-level effects other than the skinCluster influence list and
     envelope are outside the model, as no claim depends on them.
   * Python `str.format` on the templates used by this repository substitutes
     a placeholder that occurs at the start of the string; templates are
     modelled with that leading-placeholder shape ("{}", "{name}", "{side}"
     written with escaped braces below).
   * `cmds.listRelatives` on a name that matches no object raises ValueError. -/

/-- One entry of `DEFORMER_SUFFIX_ASSOCIATIONS`: a dict with a
`suffix` key and a `type` key. -/
structure Assoc where
  suffix : String
  type : String
deriving Repr, DecidableEq

/-- The `"\x7b\x7d"` side placeholder (Python `"{}"`). -/
def anonPh : String := "\x7b\x7d"

/-- The `"\x7bname\x7d"` placeholder. -/
def namePh : String := "\x7bname\x7d"

/-- The `"\x7bside\x7d"` placeholder. -/
def sidePh : String := "\x7bside\x7d"

/-- Kernel-friendly `str.startswith`. -/
def strStartsWith (s p : String) : Bool := p.data.isPrefixOf s.data

/-- Kernel-friendly `str.endswith`. -/
def strEndsWith (s p : String) : Bool := p.data.isSuffixOf s.data

/-- Drop the first `n` characters of a string. -/
def dropChars (n : Nat) (s : String) : String := ⟨s.data.drop n⟩

/-- Python `s.split("_")[0]`. -/
def headToken (s : String) : String := ⟨s.data.takeWhile (fun c => c ≠ '_')⟩

/-- Python `s.split("_")[-1]`. -/
def lastToken (s : String) : String := ⟨(s.data.reverse.takeWhile (fun c => c ≠ '_')).reverse⟩

/-- Substring test, used for the `"Shape" not in child` filter. -/
def hasSubstrAux (pat : List Char) : List Char → Bool
  | [] => pat.isPrefixOf ([] : List Char)
  | c :: r => pat.isPrefixOf (c :: r) || hasSubstrAux pat r

/-- Substring test on strings. -/
def hasSubstr (s pat : String) : Bool := hasSubstrAux pat.data s.data

/-- First-match lookup in an association list (Python dict access /
first-match loop over a list of dicts). -/
def lookupL {α : Type} (l : List (String × α)) (k : String) : Option α :=
  match l with
  | [] => none
  | p :: r => if p.1 = k then some p.2 else lookupL r k

/-- The suffix-to-type resolution loop
(`for association in association_map: if association["suffix"] == suffix: ...; break`). -/
def lookupSuffix (association_map : List Assoc) (sfx : String) : Option String :=
  match association_map with
  | [] => none
  | a :: rest => if a.suffix = sfx then some a.type else lookupSuffix rest sfx

/-- Data carried by one deformer node of the scene.  `toSelectedBones` records
the flag `cmds.skinCluster(..., toSelectedBones=not use_hierarchy)` was called
with (meaningless for non-skin deformers). -/
structure DefInfo where
  dtype : String
  influences : List String
  envelope : Int
  toSelectedBones : Bool
deriving Repr, DecidableEq

/-- The modelled Maya scene: plain (non-deformer) objects, deformer nodes,
the transform-children relation, and the per-mesh deformer chains
(downstream-first). -/
structure Scene where
  objs : List String
  defs : List (String × DefInfo)
  children : List (String × List String)
  chains : List (String × List String)
deriving Repr, DecidableEq

/-- `cmds.objExists`. -/
def objExists (s : Scene) (n : String) : Bool :=
  s.objs.contains n || (lookupL s.defs n).isSome

/-- Whether `n` names a deformer node. -/
def isDef (s : Scene) (n : String) : Bool := (lookupL s.defs n).isSome

/-- Replace (or add) the binding of key `k`. -/
def updateL {α : Type} (l : List (String × α)) (k : String) (v : α) : List (String × α) :=
  match l with
  | [] => [(k, v)]
  | p :: r => if p.1 = k then (k, v) :: r else p :: updateL r k v

/-- The deformer chain of a mesh, downstream-first. -/
def getChain (s : Scene) (m : String) : List String :=
  (lookupL s.chains m).getD []

/-- Overwrite the deformer chain of a mesh. -/
def setChain (s : Scene) (m : String) (c : List String) : Scene :=
  { s with chains := updateL s.chains m c }

/-- Attach deformer `d` to mesh `m` at the downstream end; no-op if already
attached (see the host-API conventions above). -/
def attachGeometry (s : Scene) (d m : String) : Scene :=
  if d ∈ getChain s m then s else setChain s m (d :: getChain s m)

/-- Attach a deformer to every geometry in a list, in order. -/
def attachAll (s : Scene) (d : String) : List String → Scene
  | [] => s
  | g :: r => attachAll (attachGeometry s d g) d r

/-- Add a brand-new deformer node and attach it to the given geometries. -/
def addDefNode (s : Scene) (name : String) (info : DefInfo) (geoms : List String) : Scene :=
  attachAll { s with defs := (name, info) :: s.defs } name geoms

/-- Update the stored data of deformer `k` (keys untouched). -/
def mapVal (l : List (String × DefInfo)) (k : String) (g : DefInfo → DefInfo) :
    List (String × DefInfo) :=
  l.map (fun p => if p.1 = k then (p.1, g p.2) else p)

/-- `cmds.setAttr(name + ".envelope", env)`. -/
def setEnvelope (s : Scene) (name : String) (env : Int) : Scene :=
  { s with defs := mapVal s.defs name (fun i => { i with envelope := env }) }

/-- `cmds.skinCluster(name, edit=True, addInfluence=joints)` influence update. -/
def addInfluences (s : Scene) (name : String) (joints : List String) : Scene :=
  { s with defs := mapVal s.defs name (fun i => { i with influences := i.influences ++ joints }) }

/-- A deformer creation command (`cmds.cluster` and friends): if the requested
name already exists Maya silently picks another, modelled by appending "1". -/
def mayaCreate (s : Scene) (name dtype : String) (geoms : List String) : Scene × String :=
  let actual := if objExists s name then name ++ "1" else name
  (addDefNode s actual (DefInfo.mk dtype [] 1 false) geoms, actual)

/-- `cmds.deformer(d, edit=True, geometry=m)`: raises if `d` is not a
deformer node, otherwise attaches `m` to it. -/
def deformerEditGeometry (s : Scene) (d m : String) : Scene × Option String :=
  if isDef s d then (attachGeometry s d m, none)
  else (s, some "RuntimeError: not a deformer node")

/-- `utils.get_children`: `cmds.listRelatives(node, children=True)` raises on a
missing node; otherwise child transforms whose name does not contain "Shape". -/
def get_children (s : Scene) (node : String) : Except String (List String) :=
  if objExists s node then
    .ok (((lookupL s.children node).getD []).filter (fun c => !hasSubstr c "Shape"))
  else .error "ValueError: No object matches name"

/-- The inner filtering of `utils.list_deformers`: walk the history
(downstream-first chain), and for every type in `types` that the node
matches, append the node and the type.  (The source's inner loop uses
`continue`, not `break`, so a node matching several requested types is
appended once per matching type.) -/
def typeFiltered (s : Scene) (history types : List String) : List String × List String :=
  match history with
  | [] => ([], [])
  | d :: rest =>
    let pr := typeFiltered s rest types
    let hits := types.filter (fun typ =>
      match lookupL s.defs d with
      | some info => decide (info.dtype = typ)
      | none => false)
    (hits.map (fun _ => d) ++ pr.1, hits ++ pr.2)

/-- `utils.list_deformers`: raises if the mesh does not exist
(`cmds.listRelatives` on it does), else returns the chain filtered by type. -/
def list_deformers (s : Scene) (mesh : String) (types : List String) :
    Except String (List String × List String) :=
  if objExists s mesh then .ok (typeFiltered s (getChain s mesh) types)
  else .error "ValueError: No object matches name"

/-- The per-template expansion of `utils.copy_deformers`: `"\x7b\x7d"` templates
yield an L and an R name, `"\x7bname\x7d"` substitutes the target, `"\x7bside\x7d"`
substitutes the target's first underscore token. -/
def expandDeformer (deformer target : String) : List String :=
  if strStartsWith deformer anonPh then
    ["L", "R"].map (fun side => side ++ dropChars 2 deformer)
  else if strStartsWith deformer namePh then
    [target ++ dropChars 6 deformer]
  else if strStartsWith deformer sidePh then
    [headToken target ++ dropChars 6 deformer]
  else [deformer]

/-- The single resolved name of a template that is not side-expanded
(used to state order-preservation claims). -/
def resolveTemplate (deformer target : String) : String :=
  if strStartsWith deformer namePh then target ++ dropChars 6 deformer
  else if strStartsWith deformer sidePh then headToken target ++ dropChars 6 deformer
  else deformer

/-- Result of `utils.copy_deformers`: the scene after the scan (existing
deformers get the target attached), a possible raised error, and the
`missing` / `raw_missing` accumulators. -/
structure CopyRes where
  scene : Scene
  err : Option String
  missing : List String
  raw_missing : List String
deriving Repr, DecidableEq

/-- Inner loop of the scan (`for defo in deformers:`): existing names get the
target attached, missing names are recorded together with their template. -/
def scanExp (target deformer : String) : List String → CopyRes → CopyRes
  | [], acc => acc
  | defo :: rest, acc =>
    match acc.err with
    | some _ => acc
    | none =>
      if objExists acc.scene defo then
        match deformerEditGeometry acc.scene defo target with
        | (s', none) => scanExp target deformer rest { acc with scene := s' }
        | (s', some e) => { acc with scene := s', err := some e }
      else
        scanExp target deformer rest
          { acc with missing := acc.missing ++ [defo],
                     raw_missing := acc.raw_missing ++ [deformer] }

/-- Outer loop of the scan; the list is the stack already reversed
(`for deformer in reversed(deformer_stack):`). -/
def scanStack (target : String) : List String → CopyRes → CopyRes
  | [], acc => acc
  | deformer :: rest, acc =>
    scanStack target rest (scanExp target deformer (expandDeformer deformer target) acc)

/-- `utils.copy_deformers(target, source, types, deformer_stack)`: with a
falsy (empty) `deformer_stack` the stack is derived from the source mesh via
`list_deformers`; then the reversed stack is scanned. -/
def copy_deformers (target source : String) (types deformer_stack : List String)
    (s : Scene) : CopyRes :=
  if deformer_stack.isEmpty then
    match list_deformers s source types with
    | .error e => CopyRes.mk s (some e) [] []
    | .ok pr => scanStack target pr.1.reverse (CopyRes.mk s none [] [])
  else scanStack target deformer_stack.reverse (CopyRes.mk s none [] [])

/-- Python truthiness of an optional string. -/
def pyTruthy (o : Option String) : Bool :=
  match o with
  | none => false
  | some t => decide (t ≠ "")

/-- Result of `utils.create_deformer`. -/
structure CDRes where
  scene : Scene
  err : Option String
  result : Option (List String)
deriving Repr, DecidableEq

/-- A creation branch of `utils.create_deformer`: run the host creation
command and return its result list. -/
def created (s : Scene) (name dtype : String) (geoms : List String) : CDRes :=
  CDRes.mk (mayaCreate s name dtype geoms).1 none (some [(mayaCreate s name dtype geoms).2])

/-- The type dispatch (`if deformer_type == "cluster": ... elif ...`) of
`utils.create_deformer`, split out for proof convenience.
`wrap` / `proximityWrap` call external `autorig.deformers` helpers; per the
spec they create a deformer of that name driven by the bound source, modelled
here as a deformer on `meshes[0]`.  `shrinkWrap` (in-repo) deforms `meshes[1]`
(it calls `create_shrinkwrap(meshes[1], meshes[0], name)`); its fixed
parameter table and shape connections are attribute-level and not modelled. -/
def dispatchDeformer (t name : String) (meshes : List String) (s : Scene) : CDRes :=
  if t = "" then CDRes.mk s none none
  else if t = "cluster" then created s name "cluster" meshes
  else if t = "ffd" then created s name "ffd" meshes
  else if t = "blendShape" then created s name "blendShape" meshes
  else if t = "wire" then
    match meshes with
    | [] => CDRes.mk s (some "IndexError") none
    | m0 :: _ => created s name "wire" [m0]
  else if t = "wrap" then
    match meshes with
    | m0 :: _ :: _ => CDRes.mk (mayaCreate s name "wrap" [m0]).1 none (some [name])
    | _ => CDRes.mk s (some "IndexError") none
  else if t = "proximityWrap" then
    match meshes with
    | m0 :: _ :: _ => CDRes.mk (mayaCreate s name "proximityWrap" [m0]).1 none (some [name])
    | _ => CDRes.mk s (some "IndexError") none
  else if t = "shrinkWrap" then
    match meshes with
    | _ :: m1 :: _ => created s name "shrinkWrap" [m1]
    | _ => CDRes.mk s (some "IndexError") none
  else if t = "bend" then
    match meshes with
    | [] => CDRes.mk s (some "IndexError") none
    | m0 :: _ => created s name "bend" [m0]
  else created s name t []

/-- `utils.create_deformer(name, meshes, deformer_type, association_map)`:
resolve the type from the name suffix when none is given, then dispatch via
`dispatchDeformer`.  An unresolvable suffix creates nothing and returns
`None`. -/
def create_deformer (association_map : List Assoc) (name : String)
    (meshes : List String) (deformer_type : Option String) (s : Scene) : CDRes :=
  let dt : Option String :=
    if pyTruthy deformer_type then deformer_type
    else lookupSuffix association_map (lastToken name)
  match dt with
  | none => CDRes.mk s none none
  | some t => dispatchDeformer t name meshes s

/-- `utils.bind_skincluster(name, mesh, joints, use_hierarchy, method, envelope)`:
if the name exists it is edited with `addInfluence` (raising when it is not a
skinCluster node), otherwise a new skinCluster is created on the mesh with the
given joints and `toSelectedBones=not use_hierarchy`; either way the envelope
attribute is then set. -/
def bind_skincluster (name mesh : String) (joints : List String)
    (use_hierarchy : Bool) (envelope : Int) (s : Scene) : Scene × Option String :=
  if objExists s name then
    match lookupL s.defs name with
    | some info =>
      if info.dtype = "skinCluster" then
        (setEnvelope (addInfluences s name joints) name envelope, none)
      else (s, some "RuntimeError: not a skinCluster")
    | none => (s, some "RuntimeError: not a skinCluster")
  else
    (setEnvelope
      (addDefNode s name (DefInfo.mk "skinCluster" joints 1 (!use_hierarchy)) [mesh])
      name envelope, none)

/-- The value stored under one key of a `DEFORMERS_STACK` entry: `None`, a
skinCluster parameter dict, or a source-mesh dict. -/
inductive SpecVal where
  | noneV : SpecVal
  | skin (joints : List String) (useHierarchy : Bool) (envelope : Int) : SpecVal
  | src (source : String) : SpecVal
deriving Repr, DecidableEq

/-- Whether a spec value is a skinCluster parameter dict. -/
def isSkinVal : SpecVal → Bool
  | .skin _ _ _ => true
  | _ => false

/-- Running state of `build.create_all_deformers`: the scene, the
function-local `deformer_type` variable (`none` = not yet assigned: reading
it then raises UnboundLocalError), and a possible raised error. -/
structure RunSt where
  scene : Scene
  dtVar : Option String
  err : Option String
deriving Repr, DecidableEq

/-- The dispatch of one creation-loop iteration once the `deformer_type`
variable holds a value `t` (see `createStep`).  A skinCluster type dispatches
to `bind_skincluster` using the spec's parameter dict (raising
KeyError/TypeError when the dict does not have the skin shape); any other
truthy type dispatches to `create_deformer` with `[mesh]`, or
`[source, mesh]` when the spec value is a non-`None` dict (whose `"source"`
access raises KeyError on a skin dict); the empty string is falsy and the
iteration does nothing. -/
def createStepT (assoc : List Assoc) (specs : List (String × SpecVal)) (mesh : String)
    (st : RunSt) (kv : String × String) (t : String) : RunSt :=
  if t = "" then { st with dtVar := some t }
  else if t = "skinCluster" then
    match lookupL specs kv.1 with
    | none => { st with dtVar := some t, err := some "KeyError" }
    | some v =>
      match v with
      | .skin joints uh env =>
        RunSt.mk (bind_skincluster kv.2 mesh joints uh env st.scene).1 (some t)
          (bind_skincluster kv.2 mesh joints uh env st.scene).2
      | .noneV => { st with dtVar := some t, err := some "TypeError: NoneType" }
      | .src _ => { st with dtVar := some t, err := some "KeyError: joints" }
  else
    match lookupL specs kv.1 with
    | none => { st with dtVar := some t, err := some "KeyError" }
    | some v =>
      match v with
      | .skin _ _ _ => { st with dtVar := some t, err := some "KeyError: source" }
      | .noneV =>
        RunSt.mk (create_deformer assoc kv.2 [mesh] none st.scene).scene (some t)
          (create_deformer assoc kv.2 [mesh] none st.scene).err
      | .src source =>
        RunSt.mk (create_deformer assoc kv.2 [source, mesh] none st.scene).scene (some t)
          (create_deformer assoc kv.2 [source, mesh] none st.scene).err

/-- The value the `deformer_type` variable holds after the suffix-association
loop of one creation-loop iteration: the first matching association's type, or
the stale previous value when nothing matches. -/
def resolvedType (assoc : List Assoc) (dtVar : Option String) (d : String) : Option String :=
  match lookupSuffix assoc (lastToken d) with
  | some t => some t
  | none => dtVar

/-- One iteration of the creation loop of `build.create_all_deformers`
(`for key, deformer in zip(raw_missing, missing):`).  The suffix of the
resolved name is looked up in the association table; when no association
matches, the stale `deformer_type` value from the previous iteration is used
unchanged (or UnboundLocalError is raised if there was none) — this mirrors
the source, which never resets the variable between iterations. -/
def createStep (assoc : List Assoc) (specs : List (String × SpecVal)) (mesh : String)
    (st : RunSt) (kv : String × String) : RunSt :=
  match st.err with
  | some _ => st
  | none =>
    match resolvedType assoc st.dtVar kv.2 with
    | none => { st with err := some "UnboundLocalError: deformer_type" }
    | some t => createStepT assoc specs mesh st kv t

/-- The creation loop folded over the zipped `(raw_missing, missing)` pairs. -/
def createLoop (assoc : List Assoc) (specs : List (String × SpecVal)) (mesh : String) :
    List (String × String) → RunSt → RunSt
  | [], st => st
  | kv :: rest, st => createLoop assoc specs mesh rest (createStep assoc specs mesh st kv)

/-- The per-mesh body of `build.create_all_deformers`: scan the stack with
`copy_deformers(target=mesh, deformer_stack=deformers.keys())` (source and
types keep their defaults), then run the creation loop on the missing pairs. -/
def reconcileMesh (assoc : List Assoc) (specs : List (String × SpecVal)) (mesh : String)
    (st : RunSt) : RunSt :=
  match st.err with
  | some _ => st
  | none =>
    let cr := copy_deformers mesh "" ["cluster", "ffd"] (specs.map Prod.fst) st.scene
    match cr.err with
    | some e => { st with scene := cr.scene, err := some e }
    | none =>
      createLoop assoc specs mesh (cr.raw_missing.zip cr.missing)
        { st with scene := cr.scene }

/-- Fold of `reconcileMesh` over the meshes of one object. -/
def reconcileMeshes (assoc : List Assoc) (specs : List (String × SpecVal)) :
    List String → RunSt → RunSt
  | [], st => st
  | m :: rest, st => reconcileMeshes assoc specs rest (reconcileMesh assoc specs m st)

/-- Side expansion of a `DEFORMERS_STACK` key in `build.create_all_deformers`
(`if node.startswith("\x7b\x7d"): objects = [node.format(side) for side in "LR"]`). -/
def expandNode (node : String) : List String :=
  if strStartsWith node anonPh then
    ["L", "R"].map (fun side => side ++ dropChars 2 node)
  else [node]

/-- Per-object body of `build.create_all_deformers`:
`meshes = utils.get_children(obj) or [obj]`, then reconcile each mesh.
`get_children` raises when the object does not exist. -/
def processObj (assoc : List Assoc) (specs : List (String × SpecVal)) (obj : String)
    (st : RunSt) : RunSt :=
  match st.err with
  | some _ => st
  | none =>
    match get_children st.scene obj with
    | .error e => { st with err := some e }
    | .ok cs =>
      reconcileMeshes assoc specs (if cs.isEmpty then [obj] else cs) st

/-- Fold of `processObj` over the side-expanded objects. -/
def processObjs (assoc : List Assoc) (specs : List (String × SpecVal)) :
    List String → RunSt → RunSt
  | [], st => st
  | obj :: rest, st => processObjs assoc specs rest (processObj assoc specs obj st)

/-- Outer loop of `build.create_all_deformers` over the `DEFORMERS_STACK`
items; the `deformer_type` variable and any raised error persist across
targets, matching the single Python function body. -/
def caRun (assoc : List Assoc) :
    List (String × List (String × SpecVal)) → RunSt → RunSt
  | [], st => st
  | nd :: rest, st =>
    caRun assoc rest (processObjs assoc nd.2 (expandNode nd.1) st)

/-- `build.create_all_deformers(deformers_data)` started on a scene. -/
def create_all_deformers (assoc : List Assoc)
    (data : List (String × List (String × SpecVal))) (s : Scene) : RunSt :=
  caRun assoc data (RunSt.mk s none none)

/-- Rename a node everywhere it is referenced in the modelled scene
(`cmds.rename`). -/
def renameDef (s : Scene) (oldN newN : String) : Scene :=
  Scene.mk
    (s.objs.map (fun n => if n = oldN then newN else n))
    (s.defs.map (fun p => if p.1 = oldN then (newN, p.2) else p))
    (s.children.map (fun p =>
      (if p.1 = oldN then newN else p.1, p.2.map (fun c => if c = oldN then newN else c))))
    (s.chains.map (fun p =>
      (if p.1 = oldN then newN else p.1, p.2.map (fun c => if c = oldN then newN else c))))

/-- The first spec key ending in "_skinCluster"
(`for deformer in deformers: if not deformer.endswith("_skinCluster"): continue; ...; break`). -/
def findSkinKey : List (String × SpecVal) → Option String
  | [] => none
  | p :: r => if strEndsWith p.1 "_skinCluster" then some p.1 else findSkinKey r

/-- The skinCluster-renaming step of `build.rename_scene` for one mesh:
list the mesh's skinClusters, skip when none or when the spec names none,
expand the `"\x7bname\x7d"` / `"\x7bside\x7d"` placeholders, and raise
(`cmds.error`, a hard RuntimeError) when more than one skinCluster was found
where exactly one is expected; only then rename.  (The source's comparison
`skincluster == skincluster_name` compares a list with a string and is always
False in Python, so it never skips; `cmds.rename` is called with the
one-element list, modelled as renaming its element.) -/
def rename_scene_skin_step (specs : List (String × SpecVal)) (mesh : String)
    (s : Scene) : Scene × Option String :=
  match list_deformers s mesh ["skinCluster"] with
  | .error e => (s, some e)
  | .ok pr =>
    if pr.1.isEmpty then (s, none)
    else
      match findSkinKey specs with
      | none => (s, none)
      | some raw =>
        let n1 := if strStartsWith raw namePh then mesh ++ dropChars 6 raw else raw
        let n2 := if strStartsWith n1 sidePh then headToken mesh ++ dropChars 6 n1 else n1
        if pr.1.length > 1 then
          (s, some "RuntimeError: One skinCluster is expected")
        else (renameDef s (pr.1.headD "") n2, none)

/-- Child expansion inside `utils.get_meshes`
(`if child.startswith("\x7b\x7d"): meshes.append(child.format(side)) for side in "LR"`). -/
def gmExpandChild (child : String) : List String :=
  if strStartsWith child anonPh then
    ["L", "R"].map (fun side => side ++ dropChars 2 child)
  else [child]

/-- Contribution of one existing node in `utils.get_meshes`:
`children = get_children(node) or [node]`, each child side-expanded. -/
def gmConcrete (s : Scene) (node : String) : Except String (List String) :=
  match get_children s node with
  | .error e => .error e
  | .ok cs =>
    .ok (((if cs.isEmpty then [node] else cs)).foldl
      (fun acc c => acc ++ gmExpandChild c) [])

/-- Contribution of one side-expanded node in `utils.get_meshes`: a
non-existing node is skipped with a log message — except the special
"M_eyelash_rig_mesh", which is substituted by "M_eyelash_rig05_mesh". -/
def gmNode (s : Scene) (node : String) : Except String (List String) :=
  if !objExists s node then
    if node ≠ "M_eyelash_rig_mesh" then .ok []
    else gmConcrete s "M_eyelash_rig05_mesh"
  else gmConcrete s node

/-- Inner fold of `utils.get_meshes` over the side expansion of one object. -/
def gmSides (s : Scene) : List String → Except String (List String)
  | [] => .ok []
  | n :: r =>
    match gmNode s n with
    | .error e => .error e
    | .ok ms =>
      match gmSides s r with
      | .error e => .error e
      | .ok more => .ok (ms ++ more)

/-- Outer fold of `utils.get_meshes` over the selected objects. -/
def gmRun (s : Scene) : List String → Except String (List String)
  | [] => .ok []
  | obj :: rest =>
    match gmSides s (expandNode obj) with
    | .error e => .error e
    | .ok ms =>
      match gmRun s rest with
      | .error e => .error e
      | .ok more => .ok (ms ++ more)

/-- The object selection of `utils.get_meshes`
(`objects = [list(DEFORMERS_STACK)[i] for i in deformer_stack_keys]`,
raising IndexError out of range). -/
def gmObjects (allNodes : List String) : List Nat → Except String (List String)
  | [] => .ok []
  | i :: r =>
    match allNodes[i]? with
    | none => .error "IndexError"
    | some o =>
      match gmObjects allNodes r with
      | .error e => .error e
      | .ok rest => .ok (o :: rest)

/-- `utils.get_meshes(deformer_stack_keys)` against the stack's key list. -/
def get_meshes (allNodes : List String) (idxs : List Nat) (s : Scene) :
    Except String (List String) :=
  match gmObjects allNodes idxs with
  | .error e => .error e
  | .ok objects => gmRun s objects

/-- The resolved suffix type of a name is one of the four kinds whose creation
attaches the deformer to the target mesh (the kinds exercised by the
`DEFORMERS_STACK` configuration). -/
def good4 (assoc : List Assoc) (d : String) : Prop :=
  lookupSuffix assoc (lastToken d) = some "cluster" ∨
  lookupSuffix assoc (lastToken d) = some "ffd" ∨
  lookupSuffix assoc (lastToken d) = some "blendShape" ∨
  lookupSuffix assoc (lastToken d) = some "skinCluster"

/-- Invariant of the creation loop: the object list is untouched and every
deformer node either pre-existed in the base scene or has been attached to
the target mesh. -/
def AttachInv (base : Scene) (mesh : String) (s : Scene) : Prop :=
  s.objs = base.objs ∧
  ∀ n, isDef s n = true → isDef base n = true ∨ n ∈ getChain s mesh

/-- A `(key, resolved-name)` pair whose suffix type and parameter dict agree:
either a skinCluster spec with skin parameters, or a cluster / ffd /
blendShape spec with a `None` or source dict. -/
def stepOk (assoc : List Assoc) (specs : List (String × SpecVal)) (p : String × String) :
    Prop :=
  (lookupSuffix assoc (lastToken p.2) = some "skinCluster" ∧
    ∃ j uh env, lookupL specs p.1 = some (SpecVal.skin j uh env)) ∨
  (∃ t, lookupSuffix assoc (lastToken p.2) = some t ∧
    (t = "cluster" ∨ t = "ffd" ∨ t = "blendShape") ∧
    (lookupL specs p.1 = some SpecVal.noneV ∨
      ∃ so, lookupL specs p.1 = some (SpecVal.src so)))

/-- A spec whose resolved suffix type and parameter dict agree: a skinCluster
type with skin parameters, or a cluster / ffd / blendShape type with non-skin
parameters. -/
def specWellFormed (assoc : List Assoc) (mesh : String) (p : String × SpecVal) : Bool :=
  match lookupSuffix assoc (lastToken (resolveTemplate p.1 mesh)) with
  | none => false
  | some t =>
    if t = "skinCluster" then isSkinVal p.2
    else (decide (t = "cluster") || decide (t = "ffd") || decide (t = "blendShape"))
      && !(isSkinVal p.2)

/- ---------------------------------------------------------------- -/
/- Concrete scenes and stacks used by witnesses and counterexamples. -/
/- ---------------------------------------------------------------- -/

/-- A minimal scene holding only the face mesh. -/
def xScene : Scene := Scene.mk ["M_face_mesh"] [] [] []

/-- A two-entry suffix association table (cluster and skinCluster). -/
def xAssoc : List Assoc :=
  [Assoc.mk "cluster" "cluster", Assoc.mk "skinCluster" "skinCluster"]

/-- A stack whose first template has an unmapped suffix and whose second is a
mapped cluster. -/
def xSpecs : List (String × SpecVal) :=
  [("M_b_weird", SpecVal.noneV), ("M_a_cluster", SpecVal.noneV)]

/-- A stack where a spec with an unmapped suffix follows a skinCluster spec. -/
def ySpecs : List (String × SpecVal) :=
  [("M_b_weird", SpecVal.skin ["j2"] true 1),
   ("M_a_skinCluster", SpecVal.skin ["j1"] true 1)]

/-- Deformers data whose first target does not exist and whose second does. -/
def zData : List (String × List (String × SpecVal)) :=
  [("A_missing_grp", [("M_a_cluster", SpecVal.noneV)]),
   ("M_face_mesh", [("M_a_cluster", SpecVal.noneV)])]

/-- A scene holding the face mesh and a cluster deformer not attached to it. -/
def wScene : Scene :=
  Scene.mk ["M_face_mesh"] [("M_x_cluster", DefInfo.mk "cluster" [] 1 false)] [] []

/-- Deformers data naming the pre-existing cluster for the face mesh. -/
def wData : List (String × List (String × SpecVal)) :=
  [("M_face_mesh", [("M_x_cluster", SpecVal.noneV)])]

/-- A scene with two skinClusters attached to the face mesh. -/
def vScene : Scene :=
  Scene.mk ["M_face_mesh"]
    [("skinA", DefInfo.mk "skinCluster" [] 1 false),
     ("skinB", DefInfo.mk "skinCluster" [] 1 false)]
    [] [("M_face_mesh", ["skinA", "skinB"])]

/-- A one-spec stack naming a skinCluster template. -/
def vSpecs : List (String × SpecVal) :=
  [("M_face_mesh_skinCluster", SpecVal.skin ["j"] true 1)]

/-- A scene holding the face mesh and one joint. -/
def tScene : Scene := Scene.mk ["M_face_mesh", "j1"] [] [] []

/-- A three-entry suffix association table. -/
def tAssoc : List Assoc :=
  [Assoc.mk "cluster" "cluster", Assoc.mk "ffd" "ffd",
   Assoc.mk "skinCluster" "skinCluster"]

/-- A well-formed three-spec stack: a cluster, an ffd, and a name-template
skinCluster. -/
def tSpecs : List (String × SpecVal) :=
  [("M_a_cluster", SpecVal.noneV), ("M_b_ffd", SpecVal.noneV),
   ("\x7bname\x7d_skinCluster", SpecVal.skin ["j1"] true 1)]

/-- A scene where the requested skinCluster name already exists as a
skinCluster node. -/
def skScene : Scene :=
  Scene.mk ["M_face_mesh"]
    [("M_a_skinCluster", DefInfo.mk "skinCluster" ["j0"] 1 false)] [] []

/- ---------------------------------------------------------------- -/
/- Basic lemmas about the scene operations.                          -/
/- ---------------------------------------------------------------- -/

theorem lookupL_updateL_self {α : Type} (l : List (String × α)) (k : String) (v : α) :
    lookupL (updateL l k v) k = some v := by
  induction l with
  | nil => simp [updateL, lookupL]
  | cons p r ih =>
    by_cases h : p.1 = k
    · simp [updateL, lookupL, h]
    · simp [updateL, lookupL, h, ih]

theorem lookupL_updateL_ne {α : Type} (l : List (String × α)) (k k' : String) (v : α)
    (h : k' ≠ k) : lookupL (updateL l k v) k' = lookupL l k' := by
  induction l with
  | nil => simp [updateL, lookupL, Ne.symm h]
  | cons p r ih =>
    by_cases hp : p.1 = k
    · subst hp
      simp [updateL, lookupL, Ne.symm h]
    · simp only [updateL, if_neg hp, lookupL]
      by_cases hq : p.1 = k'
      · simp [hq]
      · simp [hq, ih]

theorem getChain_setChain_self (s : Scene) (m : String) (c : List String) :
    getChain (setChain s m c) m = c := by
  simp [getChain, setChain, lookupL_updateL_self]

theorem getChain_setChain_ne (s : Scene) (m m' : String) (c : List String) (h : m' ≠ m) :
    getChain (setChain s m c) m' = getChain s m' := by
  simp [getChain, setChain, lookupL_updateL_ne _ _ _ _ h]

theorem attachGeometry_objs (s : Scene) (d m : String) :
    (attachGeometry s d m).objs = s.objs := by
  unfold attachGeometry setChain
  split <;> rfl

theorem attachGeometry_defs (s : Scene) (d m : String) :
    (attachGeometry s d m).defs = s.defs := by
  unfold attachGeometry setChain
  split <;> rfl

theorem attachGeometry_children (s : Scene) (d m : String) :
    (attachGeometry s d m).children = s.children := by
  unfold attachGeometry setChain
  split <;> rfl

theorem getChain_attach_self (s : Scene) (d m : String) :
    getChain (attachGeometry s d m) m =
      if d ∈ getChain s m then getChain s m else d :: getChain s m := by
  unfold attachGeometry
  split <;> simp_all [getChain_setChain_self]

theorem mem_getChain_attach_self (s : Scene) (d m : String) :
    d ∈ getChain (attachGeometry s d m) m := by
  rw [getChain_attach_self]
  split <;> simp_all

theorem getChain_attach_ne (s : Scene) (d m m' : String) (h : m' ≠ m) :
    getChain (attachGeometry s d m) m' = getChain s m' := by
  unfold attachGeometry
  split
  · rfl
  · exact getChain_setChain_ne s m m' _ h

theorem mem_getChain_attach_mono (s : Scene) (d m m' n : String)
    (h : n ∈ getChain s m') : n ∈ getChain (attachGeometry s d m) m' := by
  by_cases hm : m' = m
  · subst hm
    rw [getChain_attach_self]
    split <;> simp_all
  · rw [getChain_attach_ne s d m m' hm]
    exact h

theorem getChain_attach_suffix (s : Scene) (d m m' : String) :
    (getChain s m').IsSuffix (getChain (attachGeometry s d m) m') := by
  by_cases hm : m' = m
  · subst hm
    rw [getChain_attach_self]
    split
    · exact List.suffix_refl _
    · exact ⟨[d], rfl⟩
  · rw [getChain_attach_ne s d m m' hm]

theorem attach_of_mem (s : Scene) (d m : String) (h : d ∈ getChain s m) :
    attachGeometry s d m = s := by
  unfold attachGeometry
  simp [h]

theorem attachAll_objs (s : Scene) (d : String) (gs : List String) :
    (attachAll s d gs).objs = s.objs := by
  induction gs generalizing s with
  | nil => rfl
  | cons g r ih => simp [attachAll, ih, attachGeometry_objs]

theorem attachAll_defs (s : Scene) (d : String) (gs : List String) :
    (attachAll s d gs).defs = s.defs := by
  induction gs generalizing s with
  | nil => rfl
  | cons g r ih => simp [attachAll, ih, attachGeometry_defs]

theorem attachAll_children (s : Scene) (d : String) (gs : List String) :
    (attachAll s d gs).children = s.children := by
  induction gs generalizing s with
  | nil => rfl
  | cons g r ih => simp [attachAll, ih, attachGeometry_children]

theorem attachAll_chain_preserve (s : Scene) (d m : String) (gs : List String)
    (h : d ∈ getChain s m) : getChain (attachAll s d gs) m = getChain s m := by
  induction gs generalizing s with
  | nil => rfl
  | cons g r ih =>
    by_cases hg : m = g
    · subst hg
      rw [attachAll, attach_of_mem s d m h, ih s h]
    · rw [attachAll, ih _ (by rwa [getChain_attach_ne s d g m hg]),
        getChain_attach_ne s d g m hg]

theorem attachAll_chain_notmem (s : Scene) (d m : String) (gs : List String)
    (h : m ∉ gs) : getChain (attachAll s d gs) m = getChain s m := by
  induction gs generalizing s with
  | nil => rfl
  | cons g r ih =>
    have hg : m ≠ g := fun hh => h (hh ▸ List.mem_cons_self g r)
    rw [attachAll, ih _ (fun hr => h (List.mem_cons_of_mem g hr)),
      getChain_attach_ne s d g m hg]

theorem attachAll_chain_mem (s : Scene) (d m : String) (gs : List String)
    (hm : m ∈ gs) (hd : d ∉ getChain s m) :
    getChain (attachAll s d gs) m = d :: getChain s m := by
  induction gs generalizing s with
  | nil => cases hm
  | cons g r ih =>
    by_cases hg : m = g
    · subst hg
      rw [attachAll,
        attachAll_chain_preserve _ d m r
          (by rw [getChain_attach_self]; simp [hd]),
        getChain_attach_self]
      simp [hd]
    · rcases List.mem_cons.mp hm with h1 | h2
      · exact absurd h1 hg
      · rw [attachAll, ih _ h2 (by rwa [getChain_attach_ne s d g m hg]),
          getChain_attach_ne s d g m hg]

theorem mem_getChain_attachAll (s : Scene) (d m : String) (gs : List String)
    (hm : m ∈ gs) : d ∈ getChain (attachAll s d gs) m := by
  by_cases hd : d ∈ getChain s m
  · rw [attachAll_chain_preserve s d m gs hd]; exact hd
  · rw [attachAll_chain_mem s d m gs hm hd]; exact List.mem_cons_self _ _

theorem mem_getChain_attachAll_mono (s : Scene) (d m n : String) (gs : List String)
    (h : n ∈ getChain s m) : n ∈ getChain (attachAll s d gs) m := by
  induction gs generalizing s with
  | nil => exact h
  | cons g r ih => exact ih _ (mem_getChain_attach_mono s d g m n h)

theorem attachAll_chain_suffix (s : Scene) (d m : String) (gs : List String) :
    (getChain s m).IsSuffix (getChain (attachAll s d gs) m) := by
  induction gs generalizing s with
  | nil => exact List.suffix_refl _
  | cons g r ih => exact (getChain_attach_suffix s d g m).trans (ih _)

theorem lookupL_cons {α : Type} (a : String) (v : α) (l : List (String × α)) (n : String) :
    lookupL ((a, v) :: l) n = if a = n then some v else lookupL l n := rfl

theorem lookupL_mapVal (l : List (String × DefInfo)) (k : String) (g : DefInfo → DefInfo)
    (n : String) :
    lookupL (mapVal l k g) n = if n = k then (lookupL l n).map g else lookupL l n := by
  induction l with
  | nil => simp [mapVal, lookupL]
  | cons p r ih =>
    by_cases hp : p.1 = k
    · by_cases hn : p.1 = n
      · subst hn
        subst hp
        simp [mapVal, lookupL]
      · simp only [mapVal, List.map_cons, if_pos hp, lookupL, hn, if_neg hn, if_false]
        simpa [mapVal] using ih
    · by_cases hn : p.1 = n
      · subst hn
        simp [mapVal, lookupL, hp, Ne.symm hp]
      · simp only [mapVal, List.map_cons, if_neg hp, lookupL, if_neg hn]
        simpa [mapVal] using ih

theorem isDef_setEnvelope (s : Scene) (name : String) (env : Int) (n : String) :
    isDef (setEnvelope s name env) n = isDef s n := by
  unfold isDef setEnvelope
  rw [lookupL_mapVal]
  split <;> simp [Option.isSome_map]

theorem isDef_addInfluences (s : Scene) (name : String) (js : List String) (n : String) :
    isDef (addInfluences s name js) n = isDef s n := by
  unfold isDef addInfluences
  rw [lookupL_mapVal]
  split <;> simp [Option.isSome_map]

theorem setEnvelope_objs (s : Scene) (name : String) (env : Int) :
    (setEnvelope s name env).objs = s.objs := rfl

theorem setEnvelope_chains (s : Scene) (name : String) (env : Int) :
    (setEnvelope s name env).chains = s.chains := rfl

theorem setEnvelope_children (s : Scene) (name : String) (env : Int) :
    (setEnvelope s name env).children = s.children := rfl

theorem addInfluences_objs (s : Scene) (name : String) (js : List String) :
    (addInfluences s name js).objs = s.objs := rfl

theorem addInfluences_chains (s : Scene) (name : String) (js : List String) :
    (addInfluences s name js).chains = s.chains := rfl

theorem addInfluences_children (s : Scene) (name : String) (js : List String) :
    (addInfluences s name js).children = s.children := rfl

theorem getChain_congr_chains (s s' : Scene) (h : s.chains = s'.chains) (m : String) :
    getChain s m = getChain s' m := by
  unfold getChain
  rw [h]

theorem objExists_congr (s s' : Scene) (ho : s.objs = s'.objs) (hd : s.defs = s'.defs)
    (n : String) : objExists s n = objExists s' n := by
  unfold objExists
  rw [ho, hd]

theorem isDef_congr (s s' : Scene) (hd : s.defs = s'.defs) (n : String) :
    isDef s n = isDef s' n := by
  unfold isDef
  rw [hd]

theorem objExists_setEnvelope (s : Scene) (name : String) (env : Int) (n : String) :
    objExists (setEnvelope s name env) n = objExists s n := by
  unfold objExists setEnvelope
  rw [show (mapVal s.defs name fun i => { i with envelope := env }) =
      (setEnvelope s name env).defs from rfl]
  have := isDef_setEnvelope s name env n
  unfold isDef at this
  simp only [setEnvelope] at this ⊢
  rw [this]

theorem objExists_addInfluences (s : Scene) (name : String) (js : List String) (n : String) :
    objExists (addInfluences s name js) n = objExists s n := by
  have := isDef_addInfluences s name js n
  unfold isDef at this
  unfold objExists addInfluences
  simp only [addInfluences] at this ⊢
  rw [this]

theorem addDefNode_defs (s : Scene) (name : String) (info : DefInfo) (gs : List String) :
    (addDefNode s name info gs).defs = (name, info) :: s.defs := by
  unfold addDefNode
  rw [attachAll_defs]

theorem addDefNode_objs (s : Scene) (name : String) (info : DefInfo) (gs : List String) :
    (addDefNode s name info gs).objs = s.objs := by
  unfold addDefNode
  rw [attachAll_objs]

theorem addDefNode_children (s : Scene) (name : String) (info : DefInfo) (gs : List String) :
    (addDefNode s name info gs).children = s.children := by
  unfold addDefNode
  rw [attachAll_children]

theorem isDef_addDefNode (s : Scene) (name : String) (info : DefInfo) (gs : List String)
    (n : String) :
    isDef (addDefNode s name info gs) n = (decide (name = n) || isDef s n) := by
  unfold isDef
  rw [addDefNode_defs, lookupL_cons]
  split <;> simp_all

theorem objExists_addDefNode (s : Scene) (name : String) (info : DefInfo) (gs : List String)
    (n : String) :
    objExists (addDefNode s name info gs) n = (decide (name = n) || objExists s n) := by
  unfold objExists
  rw [addDefNode_objs]
  have h := isDef_addDefNode s name info gs n
  unfold isDef at h
  rw [h]
  cases s.objs.contains n <;> cases decide (name = n) <;> simp

theorem lookupL_addDefNode (s : Scene) (name : String) (info : DefInfo) (gs : List String)
    (n : String) :
    lookupL (addDefNode s name info gs).defs n =
      if name = n then some info else lookupL s.defs n := by
  rw [addDefNode_defs, lookupL_cons]

theorem getChain_addDefNode_mem (s : Scene) (name : String) (info : DefInfo)
    (gs : List String) (m : String) (hm : m ∈ gs) (hd : name ∉ getChain s m) :
    getChain (addDefNode s name info gs) m = name :: getChain s m := by
  unfold addDefNode
  have hbase : getChain { s with defs := (name, info) :: s.defs } m = getChain s m := rfl
  rw [attachAll_chain_mem _ name m gs hm (by rwa [hbase]), hbase]

theorem mem_getChain_addDefNode (s : Scene) (name : String) (info : DefInfo)
    (gs : List String) (m : String) (hm : m ∈ gs) :
    name ∈ getChain (addDefNode s name info gs) m := by
  unfold addDefNode
  exact mem_getChain_attachAll _ name m gs hm

theorem mem_getChain_addDefNode_mono (s : Scene) (name : String) (info : DefInfo)
    (gs : List String) (m n : String) (h : n ∈ getChain s m) :
    n ∈ getChain (addDefNode s name info gs) m := by
  unfold addDefNode
  exact mem_getChain_attachAll_mono _ name m n gs h

theorem getChain_addDefNode_suffix (s : Scene) (name : String) (info : DefInfo)
    (gs : List String) (m : String) :
    (getChain s m).IsSuffix (getChain (addDefNode s name info gs) m) := by
  unfold addDefNode
  exact attachAll_chain_suffix { s with defs := (name, info) :: s.defs } name m gs

theorem isDef_imp_objExists (s : Scene) (n : String) (h : isDef s n = true) :
    objExists s n = true := by
  unfold objExists
  unfold isDef at h
  simp [h]

/- ---------------------------------------------------------------- -/
/- Lemmas about create_deformer, bind_skincluster and createStep.    -/
/- ---------------------------------------------------------------- -/

theorem create_deformer_resolve (am : List Assoc) (name : String) (meshes : List String)
    (s : Scene) :
    create_deformer am name meshes none s =
      (match lookupSuffix am (lastToken name) with
       | none => CDRes.mk s none none
       | some t => dispatchDeformer t name meshes s) := rfl

theorem created_fresh (s : Scene) (name dtype : String) (gs : List String)
    (hex : objExists s name = false) :
    created s name dtype gs =
      CDRes.mk (addDefNode s name (DefInfo.mk dtype [] 1 false) gs) none (some [name]) := by
  unfold created mayaCreate
  rw [hex]
  rfl

theorem created_shape (s : Scene) (name dtype : String) (gs : List String) :
    ∃ nm info gs2, (created s name dtype gs).scene = addDefNode s nm info gs2 :=
  ⟨_, _, _, rfl⟩

theorem dispatchDeformer_shape (t name : String) (meshes : List String) (s : Scene) :
    (dispatchDeformer t name meshes s).scene = s ∨
    ∃ nm info gs, (dispatchDeformer t name meshes s).scene = addDefNode s nm info gs := by
  unfold dispatchDeformer
  by_cases h0 : t = ""
  · rw [if_pos h0]
    exact Or.inl rfl
  rw [if_neg h0]
  by_cases h1 : t = "cluster"
  · rw [if_pos h1]
    exact Or.inr (created_shape s name "cluster" meshes)
  rw [if_neg h1]
  by_cases h2 : t = "ffd"
  · rw [if_pos h2]
    exact Or.inr (created_shape s name "ffd" meshes)
  rw [if_neg h2]
  by_cases h3 : t = "blendShape"
  · rw [if_pos h3]
    exact Or.inr (created_shape s name "blendShape" meshes)
  rw [if_neg h3]
  by_cases h4 : t = "wire"
  · rw [if_pos h4]
    cases meshes with
    | nil => exact Or.inl rfl
    | cons m0 r => exact Or.inr (created_shape s name "wire" [m0])
  rw [if_neg h4]
  by_cases h5 : t = "wrap"
  · rw [if_pos h5]
    cases meshes with
    | nil => exact Or.inl rfl
    | cons m0 r =>
      cases r with
      | nil => exact Or.inl rfl
      | cons m1 r2 => exact Or.inr ⟨_, _, _, rfl⟩
  rw [if_neg h5]
  by_cases h6 : t = "proximityWrap"
  · rw [if_pos h6]
    cases meshes with
    | nil => exact Or.inl rfl
    | cons m0 r =>
      cases r with
      | nil => exact Or.inl rfl
      | cons m1 r2 => exact Or.inr ⟨_, _, _, rfl⟩
  rw [if_neg h6]
  by_cases h7 : t = "shrinkWrap"
  · rw [if_pos h7]
    cases meshes with
    | nil => exact Or.inl rfl
    | cons m0 r =>
      cases r with
      | nil => exact Or.inl rfl
      | cons m1 r2 => exact Or.inr (created_shape s name "shrinkWrap" [m1])
  rw [if_neg h7]
  by_cases h8 : t = "bend"
  · rw [if_pos h8]
    cases meshes with
    | nil => exact Or.inl rfl
    | cons m0 r => exact Or.inr (created_shape s name "bend" [m0])
  rw [if_neg h8]
  exact Or.inr (created_shape s name t [])

theorem create_deformer_none_shape (am : List Assoc) (name : String) (meshes : List String)
    (s : Scene) :
    (create_deformer am name meshes none s).scene = s ∨
    ∃ nm info gs, (create_deformer am name meshes none s).scene = addDefNode s nm info gs := by
  rcases h : lookupSuffix am (lastToken name) with _ | t
  · rw [create_deformer_resolve, h]
    exact Or.inl rfl
  · rw [create_deformer_resolve, h]
    exact dispatchDeformer_shape t name meshes s

theorem create_deformer_none_objs (am : List Assoc) (name : String) (meshes : List String)
    (s : Scene) : (create_deformer am name meshes none s).scene.objs = s.objs := by
  rcases create_deformer_none_shape am name meshes s with h | ⟨nm, info, gs, h⟩
  · rw [h]
  · rw [h, addDefNode_objs]

theorem create_deformer_none_children (am : List Assoc) (name : String)
    (meshes : List String) (s : Scene) :
    (create_deformer am name meshes none s).scene.children = s.children := by
  rcases create_deformer_none_shape am name meshes s with h | ⟨nm, info, gs, h⟩
  · rw [h]
  · rw [h, addDefNode_children]

theorem create_deformer_none_isDef_mono (am : List Assoc) (name : String)
    (meshes : List String) (s : Scene) (n : String) (h : isDef s n = true) :
    isDef (create_deformer am name meshes none s).scene n = true := by
  rcases create_deformer_none_shape am name meshes s with hs | ⟨nm, info, gs, hs⟩
  · rw [hs]; exact h
  · rw [hs, isDef_addDefNode, h]
    simp

theorem create_deformer_none_chain_mono (am : List Assoc) (name : String)
    (meshes : List String) (s : Scene) (m n : String) (h : n ∈ getChain s m) :
    n ∈ getChain (create_deformer am name meshes none s).scene m := by
  rcases create_deformer_none_shape am name meshes s with hs | ⟨nm, info, gs, hs⟩
  · rw [hs]; exact h
  · rw [hs]; exact mem_getChain_addDefNode_mono s nm info gs m n h

theorem create_deformer_none_chain_suffix (am : List Assoc) (name : String)
    (meshes : List String) (s : Scene) (m : String) :
    (getChain s m).IsSuffix (getChain (create_deformer am name meshes none s).scene m) := by
  rcases create_deformer_none_shape am name meshes s with hs | ⟨nm, info, gs, hs⟩
  · rw [hs]
  · rw [hs]; exact getChain_addDefNode_suffix s nm info gs m

theorem create_deformer_clusterish (am : List Assoc) (name : String) (meshes : List String)
    (s : Scene) (t : String)
    (ht : t = "cluster" ∨ t = "ffd" ∨ t = "blendShape")
    (hlk : lookupSuffix am (lastToken name) = some t)
    (hex : objExists s name = false) :
    create_deformer am name meshes none s =
      CDRes.mk (addDefNode s name (DefInfo.mk t [] 1 false) meshes) none (some [name]) := by
  rw [create_deformer_resolve, hlk]
  show dispatchDeformer t name meshes s = _
  rcases ht with h | h | h <;> subst h
  · show created s name "cluster" meshes = _
    exact created_fresh s name "cluster" meshes hex
  · show created s name "ffd" meshes = _
    exact created_fresh s name "ffd" meshes hex
  · show created s name "blendShape" meshes = _
    exact created_fresh s name "blendShape" meshes hex

theorem bind_create_eq (name mesh : String) (joints : List String) (uh : Bool) (env : Int)
    (s : Scene) (hex : objExists s name = false) :
    bind_skincluster name mesh joints uh env s =
      (setEnvelope (addDefNode s name (DefInfo.mk "skinCluster" joints 1 (!uh)) [mesh])
        name env, none) := by
  unfold bind_skincluster
  rw [hex]
  rfl

theorem bind_add_eq (name mesh : String) (joints : List String) (uh : Bool) (env : Int)
    (s : Scene) (info : DefInfo) (hlk : lookupL s.defs name = some info)
    (hsk : info.dtype = "skinCluster") :
    bind_skincluster name mesh joints uh env s =
      (setEnvelope (addInfluences s name joints) name env, none) := by
  have hex : objExists s name = true := by
    unfold objExists
    rw [hlk]
    simp
  unfold bind_skincluster
  rw [hex, hlk]
  show (if info.dtype = "skinCluster" then _ else _) = _
  rw [if_pos hsk]

theorem bind_shape (name mesh : String) (joints : List String) (uh : Bool) (env : Int)
    (s : Scene) :
    (bind_skincluster name mesh joints uh env s).1 = s ∨
    (bind_skincluster name mesh joints uh env s).1 =
      setEnvelope (addInfluences s name joints) name env ∨
    (bind_skincluster name mesh joints uh env s).1 =
      setEnvelope (addDefNode s name (DefInfo.mk "skinCluster" joints 1 (!uh)) [mesh])
        name env := by
  unfold bind_skincluster
  by_cases hex : objExists s name
  · rw [if_pos hex]
    rcases hl : lookupL s.defs name with _ | info
    · exact Or.inl rfl
    · by_cases hsk : info.dtype = "skinCluster"
      · refine Or.inr (Or.inl ?_)
        show (if info.dtype = "skinCluster"
            then (setEnvelope (addInfluences s name joints) name env, (none : Option String))
            else (s, some "RuntimeError: not a skinCluster")).1 = _
        rw [if_pos hsk]
      · refine Or.inl ?_
        show (if info.dtype = "skinCluster"
            then (setEnvelope (addInfluences s name joints) name env, (none : Option String))
            else (s, some "RuntimeError: not a skinCluster")).1 = _
        rw [if_neg hsk]
  · rw [if_neg hex]
    exact Or.inr (Or.inr rfl)

theorem bind_objs (name mesh : String) (joints : List String) (uh : Bool) (env : Int)
    (s : Scene) : (bind_skincluster name mesh joints uh env s).1.objs = s.objs := by
  rcases bind_shape name mesh joints uh env s with h | h | h <;> rw [h]
  · rfl
  · rw [setEnvelope_objs, addDefNode_objs]

theorem bind_children (name mesh : String) (joints : List String) (uh : Bool) (env : Int)
    (s : Scene) : (bind_skincluster name mesh joints uh env s).1.children = s.children := by
  rcases bind_shape name mesh joints uh env s with h | h | h <;> rw [h]
  · rfl
  · rw [setEnvelope_children, addDefNode_children]

theorem bind_isDef_mono (name mesh : String) (joints : List String) (uh : Bool) (env : Int)
    (s : Scene) (n : String) (h : isDef s n = true) :
    isDef (bind_skincluster name mesh joints uh env s).1 n = true := by
  rcases bind_shape name mesh joints uh env s with hs | hs | hs <;> rw [hs]
  · exact h
  · rw [isDef_setEnvelope, isDef_addInfluences]
    exact h
  · rw [isDef_setEnvelope, isDef_addDefNode, h]
    simp

theorem getChain_setEnvelope (s : Scene) (name : String) (env : Int) (m : String) :
    getChain (setEnvelope s name env) m = getChain s m := rfl

theorem getChain_addInfluences (s : Scene) (name : String) (js : List String) (m : String) :
    getChain (addInfluences s name js) m = getChain s m := rfl

theorem bind_chain_mono (name mesh : String) (joints : List String) (uh : Bool) (env : Int)
    (s : Scene) (m n : String) (h : n ∈ getChain s m) :
    n ∈ getChain (bind_skincluster name mesh joints uh env s).1 m := by
  rcases bind_shape name mesh joints uh env s with hs | hs | hs <;> rw [hs]
  · exact h
  · rw [getChain_setEnvelope, getChain_addInfluences]
    exact h
  · rw [getChain_setEnvelope]
    exact mem_getChain_addDefNode_mono s name _ [mesh] m n h

theorem bind_chain_suffix (name mesh : String) (joints : List String) (uh : Bool) (env : Int)
    (s : Scene) (m : String) :
    (getChain s m).IsSuffix (getChain (bind_skincluster name mesh joints uh env s).1 m) := by
  rcases bind_shape name mesh joints uh env s with hs | hs | hs
  · rw [hs]
  · rw [hs, getChain_setEnvelope, getChain_addInfluences]
  · rw [hs, getChain_setEnvelope]
    exact getChain_addDefNode_suffix s name _ [mesh] m

theorem createStep_err (assoc : List Assoc) (specs : List (String × SpecVal)) (mesh : String)
    (st : RunSt) (kv : String × String) (e : String) (h : st.err = some e) :
    createStep assoc specs mesh st kv = st := by
  unfold createStep
  rw [h]

theorem createLoop_err (assoc : List Assoc) (specs : List (String × SpecVal)) (mesh : String)
    (L : List (String × String)) (st : RunSt) (e : String) (h : st.err = some e) :
    createLoop assoc specs mesh L st = st := by
  induction L with
  | nil => rfl
  | cons kv rest ih =>
    rw [createLoop, createStep_err assoc specs mesh st kv e h, ih]

theorem createStepT_scene_shape (assoc : List Assoc) (specs : List (String × SpecVal))
    (mesh : String) (st : RunSt) (kv : String × String) (t : String) :
    (createStepT assoc specs mesh st kv t).scene = st.scene ∨
    (∃ j uh env, (createStepT assoc specs mesh st kv t).scene =
      (bind_skincluster kv.2 mesh j uh env st.scene).1) ∨
    (∃ ms, (createStepT assoc specs mesh st kv t).scene =
      (create_deformer assoc kv.2 ms none st.scene).scene) := by
  unfold createStepT
  by_cases h0 : t = ""
  · rw [if_pos h0]
    exact Or.inl rfl
  rw [if_neg h0]
  by_cases h1 : t = "skinCluster"
  · rw [if_pos h1]
    rcases hl : lookupL specs kv.1 with _ | v
    · exact Or.inl rfl
    · cases v with
      | noneV => exact Or.inl rfl
      | skin j uh env => exact Or.inr (Or.inl ⟨j, uh, env, rfl⟩)
      | src so => exact Or.inl rfl
  rw [if_neg h1]
  rcases hl : lookupL specs kv.1 with _ | v
  · exact Or.inl rfl
  · cases v with
    | noneV => exact Or.inr (Or.inr ⟨[mesh], rfl⟩)
    | skin j uh env => exact Or.inl rfl
    | src so => exact Or.inr (Or.inr ⟨[so, mesh], rfl⟩)

theorem createStep_scene_shape (assoc : List Assoc) (specs : List (String × SpecVal))
    (mesh : String) (st : RunSt) (kv : String × String) :
    (createStep assoc specs mesh st kv).scene = st.scene ∨
    (∃ j uh env, (createStep assoc specs mesh st kv).scene =
      (bind_skincluster kv.2 mesh j uh env st.scene).1) ∨
    (∃ ms, (createStep assoc specs mesh st kv).scene =
      (create_deformer assoc kv.2 ms none st.scene).scene) := by
  unfold createStep
  rcases herr : st.err with _ | e
  · rcases hdt : resolvedType assoc st.dtVar kv.2 with _ | t
    · exact Or.inl rfl
    · exact createStepT_scene_shape assoc specs mesh st kv t
  · exact Or.inl rfl

theorem createStep_objs (assoc : List Assoc) (specs : List (String × SpecVal)) (mesh : String)
    (st : RunSt) (kv : String × String) :
    (createStep assoc specs mesh st kv).scene.objs = st.scene.objs := by
  rcases createStep_scene_shape assoc specs mesh st kv with h | ⟨j, uh, env, h⟩ | ⟨ms, h⟩
  · rw [h]
  · rw [h, bind_objs]
  · rw [h, create_deformer_none_objs]

theorem createStep_children (assoc : List Assoc) (specs : List (String × SpecVal))
    (mesh : String) (st : RunSt) (kv : String × String) :
    (createStep assoc specs mesh st kv).scene.children = st.scene.children := by
  rcases createStep_scene_shape assoc specs mesh st kv with h | ⟨j, uh, env, h⟩ | ⟨ms, h⟩
  · rw [h]
  · rw [h, bind_children]
  · rw [h, create_deformer_none_children]

theorem createStep_isDef_mono (assoc : List Assoc) (specs : List (String × SpecVal))
    (mesh : String) (st : RunSt) (kv : String × String) (n : String)
    (hd : isDef st.scene n = true) :
    isDef (createStep assoc specs mesh st kv).scene n = true := by
  rcases createStep_scene_shape assoc specs mesh st kv with h | ⟨j, uh, env, h⟩ | ⟨ms, h⟩
  · rw [h]; exact hd
  · rw [h]; exact bind_isDef_mono _ _ _ _ _ _ _ hd
  · rw [h]; exact create_deformer_none_isDef_mono _ _ _ _ _ hd

theorem createStep_chain_mono (assoc : List Assoc) (specs : List (String × SpecVal))
    (mesh : String) (st : RunSt) (kv : String × String) (m n : String)
    (hd : n ∈ getChain st.scene m) :
    n ∈ getChain (createStep assoc specs mesh st kv).scene m := by
  rcases createStep_scene_shape assoc specs mesh st kv with h | ⟨j, uh, env, h⟩ | ⟨ms, h⟩
  · rw [h]; exact hd
  · rw [h]; exact bind_chain_mono _ _ _ _ _ _ _ _ hd
  · rw [h]; exact create_deformer_none_chain_mono _ _ _ _ _ _ hd

theorem createStep_chain_suffix (assoc : List Assoc) (specs : List (String × SpecVal))
    (mesh : String) (st : RunSt) (kv : String × String) (m : String) :
    (getChain st.scene m).IsSuffix (getChain (createStep assoc specs mesh st kv).scene m) := by
  rcases createStep_scene_shape assoc specs mesh st kv with h | ⟨j, uh, env, h⟩ | ⟨ms, h⟩
  · rw [h]
  · rw [h]; exact bind_chain_suffix _ _ _ _ _ _ _
  · rw [h]; exact create_deformer_none_chain_suffix _ _ _ _ _

theorem createLoop_objs (assoc : List Assoc) (specs : List (String × SpecVal)) (mesh : String)
    (L : List (String × String)) (st : RunSt) :
    (createLoop assoc specs mesh L st).scene.objs = st.scene.objs := by
  induction L generalizing st with
  | nil => rfl
  | cons kv rest ih => rw [createLoop, ih, createStep_objs]

theorem createLoop_children (assoc : List Assoc) (specs : List (String × SpecVal))
    (mesh : String) (L : List (String × String)) (st : RunSt) :
    (createLoop assoc specs mesh L st).scene.children = st.scene.children := by
  induction L generalizing st with
  | nil => rfl
  | cons kv rest ih => rw [createLoop, ih, createStep_children]

theorem createLoop_isDef_mono (assoc : List Assoc) (specs : List (String × SpecVal))
    (mesh : String) (L : List (String × String)) (st : RunSt) (n : String)
    (hd : isDef st.scene n = true) :
    isDef (createLoop assoc specs mesh L st).scene n = true := by
  induction L generalizing st with
  | nil => exact hd
  | cons kv rest ih =>
    rw [createLoop]
    exact ih _ (createStep_isDef_mono assoc specs mesh st kv n hd)

theorem createLoop_chain_mono (assoc : List Assoc) (specs : List (String × SpecVal))
    (mesh : String) (L : List (String × String)) (st : RunSt) (m n : String)
    (hd : n ∈ getChain st.scene m) :
    n ∈ getChain (createLoop assoc specs mesh L st).scene m := by
  induction L generalizing st with
  | nil => exact hd
  | cons kv rest ih =>
    rw [createLoop]
    exact ih _ (createStep_chain_mono assoc specs mesh st kv m n hd)

theorem createLoop_chain_suffix (assoc : List Assoc) (specs : List (String × SpecVal))
    (mesh : String) (L : List (String × String)) (st : RunSt) (m : String) :
    (getChain st.scene m).IsSuffix (getChain (createLoop assoc specs mesh L st).scene m) := by
  induction L generalizing st with
  | nil => exact List.suffix_refl _
  | cons kv rest ih =>
    rw [createLoop]
    exact (createStep_chain_suffix assoc specs mesh st kv m).trans (ih _)

/- ---------------------------------------------------------------- -/
/- Lemmas about the copy_deformers scan.                            -/
/- ---------------------------------------------------------------- -/

theorem objExists_attach (s : Scene) (d m n : String) :
    objExists (attachGeometry s d m) n = objExists s n :=
  objExists_congr _ s (attachGeometry_objs s d m) (attachGeometry_defs s d m) n

theorem isDef_attach (s : Scene) (d m n : String) :
    isDef (attachGeometry s d m) n = isDef s n :=
  isDef_congr _ s (attachGeometry_defs s d m) n

theorem deformerEditGeometry_isDef (s : Scene) (d m : String) (h : isDef s d = true) :
    deformerEditGeometry s d m = (attachGeometry s d m, none) := by
  unfold deformerEditGeometry
  rw [h, if_pos rfl]

theorem deformerEditGeometry_not (s : Scene) (d m : String) (h : isDef s d = false) :
    deformerEditGeometry s d m = (s, some "RuntimeError: not a deformer node") := by
  unfold deformerEditGeometry
  rw [h, if_neg Bool.false_ne_true]

theorem scanExp_err (target deformer : String) (ds : List String) (acc : CopyRes)
    (e : String) (h : acc.err = some e) : scanExp target deformer ds acc = acc := by
  cases ds with
  | nil => rfl
  | cons defo rest => simp only [scanExp, h]

theorem scanStack_err (target : String) (L : List String) (acc : CopyRes) (e : String)
    (h : acc.err = some e) : scanStack target L acc = acc := by
  induction L with
  | nil => rfl
  | cons deformer rest ih =>
    rw [scanStack, scanExp_err target deformer _ acc e h, ih]

theorem scanExp_cons_exists (target deformer defo : String) (rest : List String)
    (acc : CopyRes) (h : acc.err = none) (hx : objExists acc.scene defo = true)
    (hd : isDef acc.scene defo = true) :
    scanExp target deformer (defo :: rest) acc =
      scanExp target deformer rest
        { acc with scene := attachGeometry acc.scene defo target } := by
  simp only [scanExp, h, hx, deformerEditGeometry_isDef acc.scene defo target hd]
  rw [if_pos trivial]

theorem scanExp_cons_baddef (target deformer defo : String) (rest : List String)
    (acc : CopyRes) (h : acc.err = none) (hx : objExists acc.scene defo = true)
    (hd : isDef acc.scene defo = false) :
    scanExp target deformer (defo :: rest) acc =
      { acc with err := some "RuntimeError: not a deformer node" } := by
  simp only [scanExp, h, hx, deformerEditGeometry_not acc.scene defo target hd]
  rw [if_pos trivial]

theorem scanExp_cons_missing (target deformer defo : String) (rest : List String)
    (acc : CopyRes) (h : acc.err = none) (hx : objExists acc.scene defo = false) :
    scanExp target deformer (defo :: rest) acc =
      scanExp target deformer rest
        { acc with missing := acc.missing ++ [defo],
                   raw_missing := acc.raw_missing ++ [deformer] } := by
  simp only [scanExp, h, hx]
  rw [if_neg Bool.false_ne_true]

theorem scanExp_preserve (target deformer : String) (ds : List String) (acc : CopyRes) :
    (scanExp target deformer ds acc).scene.objs = acc.scene.objs ∧
    (scanExp target deformer ds acc).scene.defs = acc.scene.defs ∧
    (scanExp target deformer ds acc).scene.children = acc.scene.children := by
  induction ds generalizing acc with
  | nil => exact ⟨rfl, rfl, rfl⟩
  | cons defo rest ih =>
    rcases herr : acc.err with _ | e
    · by_cases hx : objExists acc.scene defo = true
      · by_cases hd : isDef acc.scene defo = true
        · rw [scanExp_cons_exists target deformer defo rest acc herr hx hd]
          rcases ih { acc with scene := attachGeometry acc.scene defo target } with ⟨h1, h2, h3⟩
          exact ⟨h1.trans (attachGeometry_objs acc.scene defo target),
            h2.trans (attachGeometry_defs acc.scene defo target),
            h3.trans (attachGeometry_children acc.scene defo target)⟩
        · have hd' : isDef acc.scene defo = false := by simpa using hd
          rw [scanExp_cons_baddef target deformer defo rest acc herr hx hd']
          exact ⟨rfl, rfl, rfl⟩
      · have hx' : objExists acc.scene defo = false := by simpa using hx
        rw [scanExp_cons_missing target deformer defo rest acc herr hx']
        exact ih _
    · rw [scanExp_err target deformer _ acc e herr]
      exact ⟨rfl, rfl, rfl⟩

theorem scanStack_preserve (target : String) (L : List String) (acc : CopyRes) :
    (scanStack target L acc).scene.objs = acc.scene.objs ∧
    (scanStack target L acc).scene.defs = acc.scene.defs ∧
    (scanStack target L acc).scene.children = acc.scene.children := by
  induction L generalizing acc with
  | nil => exact ⟨rfl, rfl, rfl⟩
  | cons deformer rest ih =>
    rw [scanStack]
    rcases ih (scanExp target deformer (expandDeformer deformer target) acc) with ⟨h1, h2, h3⟩
    rcases scanExp_preserve target deformer (expandDeformer deformer target) acc with
      ⟨g1, g2, g3⟩
    exact ⟨h1.trans g1, h2.trans g2, h3.trans g3⟩

theorem scanExp_missing_mono (target deformer : String) (ds : List String) (acc : CopyRes)
    (d : String) (h : d ∈ acc.missing) : d ∈ (scanExp target deformer ds acc).missing := by
  induction ds generalizing acc with
  | nil => exact h
  | cons defo rest ih =>
    rcases herr : acc.err with _ | e
    · by_cases hx : objExists acc.scene defo = true
      · by_cases hd : isDef acc.scene defo = true
        · rw [scanExp_cons_exists target deformer defo rest acc herr hx hd]
          exact ih _ h
        · have hd' : isDef acc.scene defo = false := by simpa using hd
          rw [scanExp_cons_baddef target deformer defo rest acc herr hx hd']
          exact h
      · have hx' : objExists acc.scene defo = false := by simpa using hx
        rw [scanExp_cons_missing target deformer defo rest acc herr hx']
        exact ih _ (List.mem_append_left _ h)
    · rw [scanExp_err target deformer _ acc e herr]
      exact h

theorem scanExp_chain_mono (target deformer : String) (ds : List String) (acc : CopyRes)
    (m n : String) (h : n ∈ getChain acc.scene m) :
    n ∈ getChain (scanExp target deformer ds acc).scene m := by
  induction ds generalizing acc with
  | nil => exact h
  | cons defo rest ih =>
    rcases herr : acc.err with _ | e
    · by_cases hx : objExists acc.scene defo = true
      · by_cases hd : isDef acc.scene defo = true
        · rw [scanExp_cons_exists target deformer defo rest acc herr hx hd]
          exact ih _ (mem_getChain_attach_mono acc.scene defo target m n h)
        · have hd' : isDef acc.scene defo = false := by simpa using hd
          rw [scanExp_cons_baddef target deformer defo rest acc herr hx hd']
          exact h
      · have hx' : objExists acc.scene defo = false := by simpa using hx
        rw [scanExp_cons_missing target deformer defo rest acc herr hx']
        exact ih _ h
    · rw [scanExp_err target deformer _ acc e herr]
      exact h

theorem scanStack_chain_mono (target : String) (L : List String) (acc : CopyRes)
    (m n : String) (h : n ∈ getChain acc.scene m) :
    n ∈ getChain (scanStack target L acc).scene m := by
  induction L generalizing acc with
  | nil => exact h
  | cons deformer rest ih =>
    rw [scanStack]
    exact ih _ (scanExp_chain_mono target deformer _ acc m n h)

theorem scanExp_chain_suffix (target deformer : String) (ds : List String) (acc : CopyRes)
    (m : String) :
    (getChain acc.scene m).IsSuffix (getChain (scanExp target deformer ds acc).scene m) := by
  induction ds generalizing acc with
  | nil => exact List.suffix_refl _
  | cons defo rest ih =>
    rcases herr : acc.err with _ | e
    · by_cases hx : objExists acc.scene defo = true
      · by_cases hd : isDef acc.scene defo = true
        · rw [scanExp_cons_exists target deformer defo rest acc herr hx hd]
          exact (getChain_attach_suffix acc.scene defo target m).trans
            (ih { acc with scene := attachGeometry acc.scene defo target })
        · have hd' : isDef acc.scene defo = false := by simpa using hd
          rw [scanExp_cons_baddef target deformer defo rest acc herr hx hd']
      · have hx' : objExists acc.scene defo = false := by simpa using hx
        rw [scanExp_cons_missing target deformer defo rest acc herr hx']
        exact ih
          { acc with
            missing := acc.missing ++ [defo]
            raw_missing := acc.raw_missing ++ [deformer] }
    · rw [scanExp_err target deformer _ acc e herr]

theorem scanStack_chain_suffix (target : String) (L : List String) (acc : CopyRes)
    (m : String) :
    (getChain acc.scene m).IsSuffix (getChain (scanStack target L acc).scene m) := by
  induction L generalizing acc with
  | nil => exact List.suffix_refl _
  | cons deformer rest ih =>
    rw [scanStack]
    exact (scanExp_chain_suffix target deformer _ acc m).trans (ih _)

theorem scanExp_missing_spec (target deformer : String) (ds : List String) (acc : CopyRes)
    (d : String) (h : d ∈ (scanExp target deformer ds acc).missing) :
    d ∈ acc.missing ∨ (objExists acc.scene d = false ∧ d ∈ ds) := by
  induction ds generalizing acc with
  | nil => exact Or.inl h
  | cons defo rest ih =>
    rcases herr : acc.err with _ | e
    · by_cases hx : objExists acc.scene defo = true
      · by_cases hd : isDef acc.scene defo = true
        · rw [scanExp_cons_exists target deformer defo rest acc herr hx hd] at h
          rcases ih _ h with h1 | ⟨h2, h3⟩
          · exact Or.inl h1
          · refine Or.inr ⟨?_, List.mem_cons_of_mem defo h3⟩
            rw [← objExists_attach acc.scene defo target d]
            exact h2
        · have hd' : isDef acc.scene defo = false := by simpa using hd
          rw [scanExp_cons_baddef target deformer defo rest acc herr hx hd'] at h
          exact Or.inl h
      · have hx' : objExists acc.scene defo = false := by simpa using hx
        rw [scanExp_cons_missing target deformer defo rest acc herr hx'] at h
        rcases ih _ h with h1 | ⟨h2, h3⟩
        · rcases List.mem_append.mp h1 with h4 | h4
          · exact Or.inl h4
          · have h5 : d = defo := by simpa using h4
            subst h5
            exact Or.inr ⟨hx', List.mem_cons_self _ _⟩
        · exact Or.inr ⟨h2, List.mem_cons_of_mem defo h3⟩
    · rw [scanExp_err target deformer _ acc e herr] at h
      exact Or.inl h

theorem scanStack_missing_spec (target : String) (L : List String) (acc : CopyRes)
    (d : String) (h : d ∈ (scanStack target L acc).missing) :
    d ∈ acc.missing ∨
    (objExists acc.scene d = false ∧ ∃ k, k ∈ L ∧ d ∈ expandDeformer k target) := by
  induction L generalizing acc with
  | nil => exact Or.inl h
  | cons deformer rest ih =>
    rw [scanStack] at h
    rcases ih _ h with h1 | ⟨h2, k, hk, hdk⟩
    · rcases scanExp_missing_spec target deformer _ acc d h1 with h3 | ⟨h4, h5⟩
      · exact Or.inl h3
      · exact Or.inr ⟨h4, deformer, List.mem_cons_self _ _, h5⟩
    · have hp := scanExp_preserve target deformer (expandDeformer deformer target) acc
      exact Or.inr ⟨((objExists_congr _ acc.scene hp.1 hp.2.1 d).symm).trans h2,
        k, List.mem_cons_of_mem _ hk, hdk⟩

theorem scanExp_isDef_eq (target deformer : String) (ds : List String) (acc : CopyRes)
    (n : String) :
    isDef (scanExp target deformer ds acc).scene n = isDef acc.scene n :=
  isDef_congr _ acc.scene (scanExp_preserve target deformer ds acc).2.1 n

theorem scanStack_isDef_eq (target : String) (L : List String) (acc : CopyRes)
    (n : String) :
    isDef (scanStack target L acc).scene n = isDef acc.scene n :=
  isDef_congr _ acc.scene (scanStack_preserve target L acc).2.1 n

theorem scanStack_objExists_eq (target : String) (L : List String) (acc : CopyRes)
    (n : String) :
    objExists (scanStack target L acc).scene n = objExists acc.scene n :=
  objExists_congr _ acc.scene (scanStack_preserve target L acc).1
    (scanStack_preserve target L acc).2.1 n

theorem scanStack_missing_mono (target : String) (L : List String) (acc : CopyRes)
    (d : String) (h : d ∈ acc.missing) : d ∈ (scanStack target L acc).missing := by
  induction L generalizing acc with
  | nil => exact h
  | cons deformer rest ih =>
    rw [scanStack]
    exact ih _ (scanExp_missing_mono target deformer _ acc d h)

theorem scanExp_cover (target deformer : String) (ds : List String) (acc : CopyRes)
    (hres : (scanExp target deformer ds acc).err = none) (d : String) (hd : d ∈ ds) :
    d ∈ (scanExp target deformer ds acc).missing ∨
    (isDef (scanExp target deformer ds acc).scene d = true ∧
      d ∈ getChain (scanExp target deformer ds acc).scene target) := by
  induction ds generalizing acc with
  | nil => cases hd
  | cons defo rest ih =>
    rcases herr : acc.err with _ | e
    · by_cases hx : objExists acc.scene defo = true
      · by_cases hdd : isDef acc.scene defo = true
        · rw [scanExp_cons_exists target deformer defo rest acc herr hx hdd] at hres ⊢
          rcases List.mem_cons.mp hd with h1 | h1
          · subst h1
            refine Or.inr ⟨?_, ?_⟩
            · rw [scanExp_isDef_eq]
              show isDef (attachGeometry acc.scene d target) d = true
              rw [isDef_attach]
              exact hdd
            · exact scanExp_chain_mono target deformer rest
                { acc with scene := attachGeometry acc.scene d target } target d
                (mem_getChain_attach_self acc.scene d target)
          · exact ih _ hres h1
        · have hdd' : isDef acc.scene defo = false := by simpa using hdd
          rw [scanExp_cons_baddef target deformer defo rest acc herr hx hdd'] at hres
          cases hres
      · have hx' : objExists acc.scene defo = false := by simpa using hx
        rw [scanExp_cons_missing target deformer defo rest acc herr hx'] at hres ⊢
        rcases List.mem_cons.mp hd with h1 | h1
        · subst h1
          refine Or.inl (scanExp_missing_mono target deformer rest _ d ?_)
          exact List.mem_append_right _ (by simp)
        · exact ih _ hres h1
    · rw [scanExp_err target deformer _ acc e herr] at hres
      rw [herr] at hres
      cases hres

theorem scanStack_cover (target : String) (L : List String) (acc : CopyRes)
    (hres : (scanStack target L acc).err = none) (k : String) (hk : k ∈ L) (d : String)
    (hd : d ∈ expandDeformer k target) :
    d ∈ (scanStack target L acc).missing ∨
    (isDef (scanStack target L acc).scene d = true ∧
      d ∈ getChain (scanStack target L acc).scene target) := by
  induction L generalizing acc with
  | nil => cases hk
  | cons deformer rest ih =>
    rw [scanStack] at hres ⊢
    have hmid : (scanExp target deformer (expandDeformer deformer target) acc).err = none := by
      rcases hmid : (scanExp target deformer (expandDeformer deformer target) acc).err
        with _ | e
      · rfl
      · rw [scanStack_err target rest _ e hmid] at hres
        rw [hmid] at hres
        cases hres
    rcases List.mem_cons.mp hk with h1 | h1
    · subst h1
      rcases scanExp_cover target k (expandDeformer k target) acc hmid d hd with h2 | ⟨h3, h4⟩
      · exact Or.inl (scanStack_missing_mono target rest _ d h2)
      · refine Or.inr ⟨?_, ?_⟩
        · rw [scanStack_isDef_eq]
          exact h3
        · exact scanStack_chain_mono target rest _ target d h4
    · exact ih _ hres h1

theorem forall2_append_single {R : String → String → Prop} {l1 l2 : List String}
    (h : List.Forall₂ R l1 l2) {a b : String} (hab : R a b) :
    List.Forall₂ R (l1 ++ [a]) (l2 ++ [b]) := by
  induction h with
  | nil => exact List.Forall₂.cons hab List.Forall₂.nil
  | cons hx hr ih => exact List.Forall₂.cons hx ih

theorem scanExp_forall2 (R : String → String → Prop) (target deformer : String)
    (ds : List String) (acc : CopyRes)
    (hacc : List.Forall₂ R acc.raw_missing acc.missing)
    (hds : ∀ d ∈ ds, R deformer d) :
    List.Forall₂ R (scanExp target deformer ds acc).raw_missing
      (scanExp target deformer ds acc).missing := by
  induction ds generalizing acc with
  | nil => exact hacc
  | cons defo rest ih =>
    rcases herr : acc.err with _ | e
    · by_cases hx : objExists acc.scene defo = true
      · by_cases hd : isDef acc.scene defo = true
        · rw [scanExp_cons_exists target deformer defo rest acc herr hx hd]
          exact ih _ hacc (fun d h => hds d (List.mem_cons_of_mem _ h))
        · have hd' : isDef acc.scene defo = false := by simpa using hd
          rw [scanExp_cons_baddef target deformer defo rest acc herr hx hd']
          exact hacc
      · have hx' : objExists acc.scene defo = false := by simpa using hx
        rw [scanExp_cons_missing target deformer defo rest acc herr hx']
        exact ih _
          (forall2_append_single hacc (hds defo (List.mem_cons_self _ _)))
          (fun d h => hds d (List.mem_cons_of_mem _ h))
    · rw [scanExp_err target deformer _ acc e herr]
      exact hacc

theorem scanStack_forall2 (R : String → String → Prop) (target : String)
    (L : List String) (acc : CopyRes)
    (hacc : List.Forall₂ R acc.raw_missing acc.missing)
    (hL : ∀ k ∈ L, ∀ d ∈ expandDeformer k target, R k d) :
    List.Forall₂ R (scanStack target L acc).raw_missing
      (scanStack target L acc).missing := by
  induction L generalizing acc with
  | nil => exact hacc
  | cons k rest ih =>
    rw [scanStack]
    exact ih _
      (scanExp_forall2 R target k (expandDeformer k target) acc hacc
        (hL k (List.mem_cons_self _ _)))
      (fun k2 h => hL k2 (List.mem_cons_of_mem _ h))

theorem scanExp_fresh (target deformer : String) (ds : List String) (acc : CopyRes)
    (h : acc.err = none) (hf : ∀ d ∈ ds, objExists acc.scene d = false) :
    scanExp target deformer ds acc =
      CopyRes.mk acc.scene none (acc.missing ++ ds)
        (acc.raw_missing ++ ds.map (fun _ => deformer)) := by
  induction ds generalizing acc with
  | nil =>
    obtain ⟨sc, er, mi, ra⟩ := acc
    simp only at h
    subst h
    simp [scanExp]
  | cons defo rest ih =>
    rw [scanExp_cons_missing target deformer defo rest acc h
      (hf defo (List.mem_cons_self _ _))]
    rw [ih
      { acc with
        missing := acc.missing ++ [defo]
        raw_missing := acc.raw_missing ++ [deformer] }
      h (fun d hd => hf d (List.mem_cons_of_mem _ hd))]
    simp [List.append_assoc]

theorem scanStack_fresh (target : String) (L : List String) (acc : CopyRes)
    (h : acc.err = none)
    (hf : ∀ k ∈ L, ∀ d ∈ expandDeformer k target, objExists acc.scene d = false) :
    scanStack target L acc =
      CopyRes.mk acc.scene none
        (acc.missing ++ (L.map (fun k => expandDeformer k target)).flatten)
        (acc.raw_missing ++
          (L.map (fun k => (expandDeformer k target).map (fun _ => k))).flatten) := by
  induction L generalizing acc with
  | nil =>
    obtain ⟨sc, er, mi, ra⟩ := acc
    simp only at h
    subst h
    simp [scanStack]
  | cons k rest ih =>
    rw [scanStack, scanExp_fresh target k _ acc h (hf k (List.mem_cons_self _ _))]
    rw [ih (CopyRes.mk acc.scene none (acc.missing ++ expandDeformer k target)
      (acc.raw_missing ++ (expandDeformer k target).map (fun _ => k))) rfl
      (fun k2 hk2 d hd => hf k2 (List.mem_cons_of_mem _ hk2) d hd)]
    simp [List.append_assoc]

theorem scanExp_nop (target deformer : String) (ds : List String) (acc : CopyRes)
    (hall : ∀ d ∈ ds, isDef acc.scene d = true ∧ d ∈ getChain acc.scene target) :
    scanExp target deformer ds acc = acc := by
  induction ds generalizing acc with
  | nil => rfl
  | cons defo rest ih =>
    rcases herr : acc.err with _ | e
    · obtain ⟨hdef, hchain⟩ := hall defo (List.mem_cons_self _ _)
      rw [scanExp_cons_exists target deformer defo rest acc herr
        (isDef_imp_objExists _ _ hdef) hdef]
      rw [attach_of_mem acc.scene defo target hchain]
      exact ih acc (fun d hd => hall d (List.mem_cons_of_mem _ hd))
    · exact scanExp_err target deformer _ acc e herr

theorem scanStack_nop (target : String) (L : List String) (acc : CopyRes)
    (hall : ∀ k ∈ L, ∀ d ∈ expandDeformer k target,
      isDef acc.scene d = true ∧ d ∈ getChain acc.scene target) :
    scanStack target L acc = acc := by
  induction L generalizing acc with
  | nil => rfl
  | cons k rest ih =>
    rw [scanStack, scanExp_nop target k _ acc (hall k (List.mem_cons_self _ _))]
    exact ih acc (fun k2 h => hall k2 (List.mem_cons_of_mem _ h))

/- ---------------------------------------------------------------- -/
/- Branch equations for the creation loop.                           -/
/- ---------------------------------------------------------------- -/

theorem createStep_none_eq (assoc : List Assoc) (specs : List (String × SpecVal))
    (mesh : String) (st : RunSt) (kv : String × String) (t : String)
    (herr : st.err = none) (hlk : lookupSuffix assoc (lastToken kv.2) = some t) :
    createStep assoc specs mesh st kv = createStepT assoc specs mesh st kv t := by
  have hr : resolvedType assoc st.dtVar kv.2 = some t := by
    unfold resolvedType
    rw [hlk]
  unfold createStep
  rw [herr, hr]

theorem createStepT_skin_keyerr (assoc : List Assoc) (specs : List (String × SpecVal))
    (mesh : String) (st : RunSt) (kv : String × String)
    (hsp : lookupL specs kv.1 = none) :
    createStepT assoc specs mesh st kv "skinCluster" =
      { st with dtVar := some "skinCluster", err := some "KeyError" } := by
  unfold createStepT
  rw [if_neg (by decide), if_pos rfl, hsp]

theorem createStepT_skin_noneV (assoc : List Assoc) (specs : List (String × SpecVal))
    (mesh : String) (st : RunSt) (kv : String × String)
    (hsp : lookupL specs kv.1 = some SpecVal.noneV) :
    createStepT assoc specs mesh st kv "skinCluster" =
      { st with dtVar := some "skinCluster", err := some "TypeError: NoneType" } := by
  unfold createStepT
  rw [if_neg (by decide), if_pos rfl, hsp]

theorem createStepT_skin_src (assoc : List Assoc) (specs : List (String × SpecVal))
    (mesh : String) (st : RunSt) (kv : String × String) (so : String)
    (hsp : lookupL specs kv.1 = some (SpecVal.src so)) :
    createStepT assoc specs mesh st kv "skinCluster" =
      { st with dtVar := some "skinCluster", err := some "KeyError: joints" } := by
  unfold createStepT
  rw [if_neg (by decide), if_pos rfl, hsp]

theorem createStepT_skin_skin (assoc : List Assoc) (specs : List (String × SpecVal))
    (mesh : String) (st : RunSt) (kv : String × String) (j : List String) (uh : Bool)
    (env : Int) (hsp : lookupL specs kv.1 = some (SpecVal.skin j uh env)) :
    createStepT assoc specs mesh st kv "skinCluster" =
      RunSt.mk (bind_skincluster kv.2 mesh j uh env st.scene).1 (some "skinCluster")
        (bind_skincluster kv.2 mesh j uh env st.scene).2 := by
  unfold createStepT
  rw [if_neg (by decide), if_pos rfl, hsp]

theorem createStepT_ns_keyerr (assoc : List Assoc) (specs : List (String × SpecVal))
    (mesh : String) (st : RunSt) (kv : String × String) (t : String)
    (h0 : t ≠ "") (h1 : t ≠ "skinCluster") (hsp : lookupL specs kv.1 = none) :
    createStepT assoc specs mesh st kv t =
      { st with dtVar := some t, err := some "KeyError" } := by
  unfold createStepT
  rw [if_neg h0, if_neg h1, hsp]

theorem createStepT_ns_skin (assoc : List Assoc) (specs : List (String × SpecVal))
    (mesh : String) (st : RunSt) (kv : String × String) (t : String) (j : List String)
    (uh : Bool) (env : Int) (h0 : t ≠ "") (h1 : t ≠ "skinCluster")
    (hsp : lookupL specs kv.1 = some (SpecVal.skin j uh env)) :
    createStepT assoc specs mesh st kv t =
      { st with dtVar := some t, err := some "KeyError: source" } := by
  unfold createStepT
  rw [if_neg h0, if_neg h1, hsp]

theorem createStepT_ns_noneV (assoc : List Assoc) (specs : List (String × SpecVal))
    (mesh : String) (st : RunSt) (kv : String × String) (t : String)
    (h0 : t ≠ "") (h1 : t ≠ "skinCluster")
    (hsp : lookupL specs kv.1 = some SpecVal.noneV) :
    createStepT assoc specs mesh st kv t =
      RunSt.mk (create_deformer assoc kv.2 [mesh] none st.scene).scene (some t)
        (create_deformer assoc kv.2 [mesh] none st.scene).err := by
  unfold createStepT
  rw [if_neg h0, if_neg h1, hsp]

theorem createStepT_ns_src (assoc : List Assoc) (specs : List (String × SpecVal))
    (mesh : String) (st : RunSt) (kv : String × String) (t so : String)
    (h0 : t ≠ "") (h1 : t ≠ "skinCluster")
    (hsp : lookupL specs kv.1 = some (SpecVal.src so)) :
    createStepT assoc specs mesh st kv t =
      RunSt.mk (create_deformer assoc kv.2 [so, mesh] none st.scene).scene (some t)
        (create_deformer assoc kv.2 [so, mesh] none st.scene).err := by
  unfold createStepT
  rw [if_neg h0, if_neg h1, hsp]

theorem bind_badlookup (name mesh : String) (joints : List String) (uh : Bool) (env : Int)
    (s : Scene) (hex : objExists s name = true) (hl : lookupL s.defs name = none) :
    bind_skincluster name mesh joints uh env s =
      (s, some "RuntimeError: not a skinCluster") := by
  unfold bind_skincluster
  rw [hex, hl]
  rfl

theorem bind_badtype (name mesh : String) (joints : List String) (uh : Bool) (env : Int)
    (s : Scene) (info : DefInfo) (hex : objExists s name = true)
    (hl : lookupL s.defs name = some info) (hns : info.dtype ≠ "skinCluster") :
    bind_skincluster name mesh joints uh env s =
      (s, some "RuntimeError: not a skinCluster") := by
  unfold bind_skincluster
  rw [hex, hl]
  show (if info.dtype = "skinCluster"
      then (setEnvelope (addInfluences s name joints) name env, (none : Option String))
      else (s, some "RuntimeError: not a skinCluster")) = _
  rw [if_neg hns]

theorem objExists_false_parts (s : Scene) (n : String) (h : objExists s n = false) :
    s.objs.contains n = false ∧ isDef s n = false := by
  unfold objExists at h
  unfold isDef
  cases ha : s.objs.contains n <;> cases hb : (lookupL s.defs n).isSome <;>
    simp_all

theorem objExists_or (s : Scene) (n : String) :
    objExists s n = (s.objs.contains n || isDef s n) := rfl

theorem create_deformer_clusterish_exists (am : List Assoc) (name : String)
    (meshes : List String) (s : Scene) (t : String)
    (ht : t = "cluster" ∨ t = "ffd" ∨ t = "blendShape")
    (hlk : lookupSuffix am (lastToken name) = some t)
    (hex : objExists s name = true) :
    create_deformer am name meshes none s =
      CDRes.mk (addDefNode s (name ++ "1") (DefInfo.mk t [] 1 false) meshes) none
        (some [name ++ "1"]) := by
  have hcr : ∀ dtype, created s name dtype meshes =
      CDRes.mk (addDefNode s (name ++ "1") (DefInfo.mk dtype [] 1 false) meshes) none
        (some [name ++ "1"]) := by
    intro dtype
    unfold created mayaCreate
    rw [hex]
    rfl
  rw [create_deformer_resolve, hlk]
  show dispatchDeformer t name meshes s = _
  rcases ht with h | h | h <;> subst h
  · show created s name "cluster" meshes = _
    exact hcr "cluster"
  · show created s name "ffd" meshes = _
    exact hcr "ffd"
  · show created s name "blendShape" meshes = _
    exact hcr "blendShape"



theorem attachInv_bind (base : Scene) (mesh name : String) (joints : List String)
    (uh : Bool) (env : Int) (s : Scene) (h : AttachInv base mesh s) :
    AttachInv base mesh (bind_skincluster name mesh joints uh env s).1 := by
  obtain ⟨ho, hi⟩ := h
  rcases bind_shape name mesh joints uh env s with hs | hs | hs <;> rw [hs]
  · exact ⟨ho, hi⟩
  · refine ⟨ho, ?_⟩
    intro n hn
    rw [isDef_setEnvelope, isDef_addInfluences] at hn
    rcases hi n hn with h1 | h1
    · exact Or.inl h1
    · right
      rw [getChain_setEnvelope, getChain_addInfluences]
      exact h1
  · constructor
    · rw [setEnvelope_objs, addDefNode_objs]
      exact ho
    · intro n hn
      rw [isDef_setEnvelope, isDef_addDefNode] at hn
      simp only [Bool.or_eq_true, decide_eq_true_eq] at hn
      rcases hn with h1 | h1
      · subst h1
        right
        rw [getChain_setEnvelope]
        exact mem_getChain_addDefNode s name _ [mesh] mesh (by simp)
      · rcases hi n h1 with h2 | h2
        · exact Or.inl h2
        · right
          rw [getChain_setEnvelope]
          exact mem_getChain_addDefNode_mono s name _ [mesh] mesh n h2

theorem attachInv_addDefNode (base : Scene) (mesh nm : String) (info : DefInfo)
    (gs : List String) (s : Scene) (hmem : mesh ∈ gs) (h : AttachInv base mesh s) :
    AttachInv base mesh (addDefNode s nm info gs) := by
  obtain ⟨ho, hi⟩ := h
  constructor
  · rw [addDefNode_objs]
    exact ho
  · intro n hn
    rw [isDef_addDefNode] at hn
    simp only [Bool.or_eq_true, decide_eq_true_eq] at hn
    rcases hn with h1 | h1
    · subst h1
      exact Or.inr (mem_getChain_addDefNode s nm info gs mesh hmem)
    · rcases hi n h1 with h2 | h2
      · exact Or.inl h2
      · exact Or.inr (mem_getChain_addDefNode_mono s nm info gs mesh n h2)

theorem attachInv_createStepT_ns (assoc : List Assoc) (specs : List (String × SpecVal))
    (mesh : String) (base : Scene) (st : RunSt) (kv : String × String) (t : String)
    (h0 : t ≠ "") (h1 : t ≠ "skinCluster")
    (ht : t = "cluster" ∨ t = "ffd" ∨ t = "blendShape")
    (hlk : lookupSuffix assoc (lastToken kv.2) = some t)
    (hinv : AttachInv base mesh st.scene) :
    AttachInv base mesh (createStepT assoc specs mesh st kv t).scene := by
  rcases hsp : lookupL specs kv.1 with _ | v
  · rw [createStepT_ns_keyerr assoc specs mesh st kv t h0 h1 hsp]
    exact hinv
  · cases v with
    | skin j uh env =>
      rw [createStepT_ns_skin assoc specs mesh st kv t j uh env h0 h1 hsp]
      exact hinv
    | noneV =>
      rw [createStepT_ns_noneV assoc specs mesh st kv t h0 h1 hsp]
      by_cases hex : objExists st.scene kv.2 = true
      · rw [create_deformer_clusterish_exists assoc kv.2 [mesh] st.scene t ht hlk hex]
        exact attachInv_addDefNode base mesh _ _ [mesh] st.scene (by simp) hinv
      · rw [create_deformer_clusterish assoc kv.2 [mesh] st.scene t ht hlk
          (by simpa using hex)]
        exact attachInv_addDefNode base mesh _ _ [mesh] st.scene (by simp) hinv
    | src so =>
      rw [createStepT_ns_src assoc specs mesh st kv t so h0 h1 hsp]
      by_cases hex : objExists st.scene kv.2 = true
      · rw [create_deformer_clusterish_exists assoc kv.2 [so, mesh] st.scene t ht hlk hex]
        exact attachInv_addDefNode base mesh _ _ [so, mesh] st.scene (by simp) hinv
      · rw [create_deformer_clusterish assoc kv.2 [so, mesh] st.scene t ht hlk
          (by simpa using hex)]
        exact attachInv_addDefNode base mesh _ _ [so, mesh] st.scene (by simp) hinv

theorem attachInv_createStepT_skin (assoc : List Assoc) (specs : List (String × SpecVal))
    (mesh : String) (base : Scene) (st : RunSt) (kv : String × String)
    (hinv : AttachInv base mesh st.scene) :
    AttachInv base mesh (createStepT assoc specs mesh st kv "skinCluster").scene := by
  rcases hsp : lookupL specs kv.1 with _ | v
  · rw [createStepT_skin_keyerr assoc specs mesh st kv hsp]
    exact hinv
  · cases v with
    | noneV =>
      rw [createStepT_skin_noneV assoc specs mesh st kv hsp]
      exact hinv
    | src so =>
      rw [createStepT_skin_src assoc specs mesh st kv so hsp]
      exact hinv
    | skin j uh env =>
      rw [createStepT_skin_skin assoc specs mesh st kv j uh env hsp]
      exact attachInv_bind base mesh kv.2 j uh env st.scene hinv

theorem attachInv_createStep (assoc : List Assoc) (specs : List (String × SpecVal))
    (mesh : String) (base : Scene) (st : RunSt) (kv : String × String)
    (hg : good4 assoc kv.2) (hinv : AttachInv base mesh st.scene) :
    AttachInv base mesh (createStep assoc specs mesh st kv).scene := by
  rcases herr : st.err with _ | e
  · rcases hg with h | h | h | h
    · rw [createStep_none_eq assoc specs mesh st kv "cluster" herr h]
      exact attachInv_createStepT_ns assoc specs mesh base st kv "cluster" (by decide)
        (by decide) (Or.inl rfl) h hinv
    · rw [createStep_none_eq assoc specs mesh st kv "ffd" herr h]
      exact attachInv_createStepT_ns assoc specs mesh base st kv "ffd" (by decide)
        (by decide) (Or.inr (Or.inl rfl)) h hinv
    · rw [createStep_none_eq assoc specs mesh st kv "blendShape" herr h]
      exact attachInv_createStepT_ns assoc specs mesh base st kv "blendShape" (by decide)
        (by decide) (Or.inr (Or.inr rfl)) h hinv
    · rw [createStep_none_eq assoc specs mesh st kv "skinCluster" herr h]
      exact attachInv_createStepT_skin assoc specs mesh base st kv hinv
  · rw [createStep_err assoc specs mesh st kv e herr]
    exact hinv

theorem createStep_post (assoc : List Assoc) (specs : List (String × SpecVal))
    (mesh : String) (base : Scene) (st : RunSt) (kv : String × String)
    (hg : good4 assoc kv.2) (hinv : AttachInv base mesh st.scene)
    (herr : st.err = none)
    (hok : (createStep assoc specs mesh st kv).err = none)
    (hfresh : objExists base kv.2 = false) :
    isDef (createStep assoc specs mesh st kv).scene kv.2 = true ∧
    kv.2 ∈ getChain (createStep assoc specs mesh st kv).scene mesh := by
  have hobjeq : objExists st.scene kv.2 = isDef st.scene kv.2 := by
    have hparts := objExists_false_parts base kv.2 hfresh
    rw [objExists_or, hinv.1, hparts.1]
    simp
  have hstcase : isDef st.scene kv.2 = true → kv.2 ∈ getChain st.scene mesh := by
    intro hd
    rcases hinv.2 kv.2 hd with h1 | h1
    · rw [(objExists_false_parts base kv.2 hfresh).2] at h1
      cases h1
    · exact h1
  have hns : ∀ t, t ≠ "" → t ≠ "skinCluster" →
      (t = "cluster" ∨ t = "ffd" ∨ t = "blendShape") →
      lookupSuffix assoc (lastToken kv.2) = some t →
      isDef (createStep assoc specs mesh st kv).scene kv.2 = true ∧
      kv.2 ∈ getChain (createStep assoc specs mesh st kv).scene mesh := by
    intro t h0 h1 ht hlk
    rw [createStep_none_eq assoc specs mesh st kv t herr hlk] at hok ⊢
    rcases hsp : lookupL specs kv.1 with _ | v
    · rw [createStepT_ns_keyerr assoc specs mesh st kv t h0 h1 hsp] at hok
      simp at hok
    · cases v with
      | skin j uh env =>
        rw [createStepT_ns_skin assoc specs mesh st kv t j uh env h0 h1 hsp] at hok
        simp at hok
      | noneV =>
        rw [createStepT_ns_noneV assoc specs mesh st kv t h0 h1 hsp]
        by_cases hex : objExists st.scene kv.2 = true
        · rw [create_deformer_clusterish_exists assoc kv.2 [mesh] st.scene t ht hlk hex]
          have hd : isDef st.scene kv.2 = true := by
            rw [← hobjeq]
            exact hex
          constructor
          · show isDef (addDefNode st.scene (kv.2 ++ "1")
                (DefInfo.mk t [] 1 false) [mesh]) kv.2 = true
            rw [isDef_addDefNode, hd]
            simp
          · show kv.2 ∈ getChain (addDefNode st.scene (kv.2 ++ "1")
                (DefInfo.mk t [] 1 false) [mesh]) mesh
            exact mem_getChain_addDefNode_mono st.scene _ _ [mesh] mesh kv.2 (hstcase hd)
        · rw [create_deformer_clusterish assoc kv.2 [mesh] st.scene t ht hlk
            (by simpa using hex)]
          constructor
          · show isDef (addDefNode st.scene kv.2 (DefInfo.mk t [] 1 false) [mesh])
                kv.2 = true
            rw [isDef_addDefNode]
            simp
          · show kv.2 ∈ getChain (addDefNode st.scene kv.2
                (DefInfo.mk t [] 1 false) [mesh]) mesh
            exact mem_getChain_addDefNode st.scene kv.2 _ [mesh] mesh (by simp)
      | src so =>
        rw [createStepT_ns_src assoc specs mesh st kv t so h0 h1 hsp]
        by_cases hex : objExists st.scene kv.2 = true
        · rw [create_deformer_clusterish_exists assoc kv.2 [so, mesh] st.scene t ht hlk hex]
          have hd : isDef st.scene kv.2 = true := by
            rw [← hobjeq]
            exact hex
          constructor
          · show isDef (addDefNode st.scene (kv.2 ++ "1")
                (DefInfo.mk t [] 1 false) [so, mesh]) kv.2 = true
            rw [isDef_addDefNode, hd]
            simp
          · show kv.2 ∈ getChain (addDefNode st.scene (kv.2 ++ "1")
                (DefInfo.mk t [] 1 false) [so, mesh]) mesh
            exact mem_getChain_addDefNode_mono st.scene _ _ [so, mesh] mesh kv.2
              (hstcase hd)
        · rw [create_deformer_clusterish assoc kv.2 [so, mesh] st.scene t ht hlk
            (by simpa using hex)]
          constructor
          · show isDef (addDefNode st.scene kv.2
                (DefInfo.mk t [] 1 false) [so, mesh]) kv.2 = true
            rw [isDef_addDefNode]
            simp
          · show kv.2 ∈ getChain (addDefNode st.scene kv.2
                (DefInfo.mk t [] 1 false) [so, mesh]) mesh
            exact mem_getChain_addDefNode st.scene kv.2 _ [so, mesh] mesh (by simp)
  rcases hg with h | h | h | h
  · exact hns "cluster" (by decide) (by decide) (Or.inl rfl) h
  · exact hns "ffd" (by decide) (by decide) (Or.inr (Or.inl rfl)) h
  · exact hns "blendShape" (by decide) (by decide) (Or.inr (Or.inr rfl)) h
  · rw [createStep_none_eq assoc specs mesh st kv "skinCluster" herr h] at hok ⊢
    rcases hsp : lookupL specs kv.1 with _ | v
    · rw [createStepT_skin_keyerr assoc specs mesh st kv hsp] at hok
      simp at hok
    · cases v with
      | noneV =>
        rw [createStepT_skin_noneV assoc specs mesh st kv hsp] at hok
        simp at hok
      | src so =>
        rw [createStepT_skin_src assoc specs mesh st kv so hsp] at hok
        simp at hok
      | skin j uh env =>
        rw [createStepT_skin_skin assoc specs mesh st kv j uh env hsp] at hok ⊢
        have hb : (bind_skincluster kv.2 mesh j uh env st.scene).2 = none := hok
        by_cases hex : objExists st.scene kv.2 = true
        · rcases hli : lookupL st.scene.defs kv.2 with _ | info
          · rw [bind_badlookup kv.2 mesh j uh env st.scene hex hli] at hb
            simp at hb
          · by_cases hsk : info.dtype = "skinCluster"
            · rw [bind_add_eq kv.2 mesh j uh env st.scene info hli hsk]
              have hd : isDef st.scene kv.2 = true := by
                unfold isDef
                rw [hli]
                rfl
              constructor
              · show isDef (setEnvelope (addInfluences st.scene kv.2 j) kv.2 env)
                    kv.2 = true
                rw [isDef_setEnvelope, isDef_addInfluences]
                exact hd
              · show kv.2 ∈ getChain (setEnvelope (addInfluences st.scene kv.2 j)
                    kv.2 env) mesh
                rw [getChain_setEnvelope, getChain_addInfluences]
                exact hstcase hd
            · rw [bind_badtype kv.2 mesh j uh env st.scene info hex hli hsk] at hb
              simp at hb
        · rw [bind_create_eq kv.2 mesh j uh env st.scene (by simpa using hex)]
          constructor
          · show isDef (setEnvelope (addDefNode st.scene kv.2
                (DefInfo.mk "skinCluster" j 1 (!uh)) [mesh]) kv.2 env) kv.2 = true
            rw [isDef_setEnvelope, isDef_addDefNode]
            simp
          · show kv.2 ∈ getChain (setEnvelope (addDefNode st.scene kv.2
                (DefInfo.mk "skinCluster" j 1 (!uh)) [mesh]) kv.2 env) mesh
            rw [getChain_setEnvelope]
            exact mem_getChain_addDefNode st.scene kv.2 _ [mesh] mesh (by simp)

theorem createLoop_post (assoc : List Assoc) (specs : List (String × SpecVal))
    (mesh : String) (base : Scene) (L : List (String × String)) (st : RunSt)
    (hst : st.err = none) (hinv : AttachInv base mesh st.scene)
    (hgood : ∀ p ∈ L, good4 assoc p.2 ∧ objExists base p.2 = false)
    (hend : (createLoop assoc specs mesh L st).err = none) :
    ∀ p ∈ L, isDef (createLoop assoc specs mesh L st).scene p.2 = true ∧
      p.2 ∈ getChain (createLoop assoc specs mesh L st).scene mesh := by
  induction L generalizing st with
  | nil => exact fun p hp => absurd hp (List.not_mem_nil p)
  | cons kv rest ih =>
    rw [createLoop] at hend ⊢
    rcases hse : (createStep assoc specs mesh st kv).err with _ | e
    · have hkv := hgood kv (List.mem_cons_self _ _)
      have hstep_inv : AttachInv base mesh (createStep assoc specs mesh st kv).scene :=
        attachInv_createStep assoc specs mesh base st kv hkv.1 hinv
      have hpost := createStep_post assoc specs mesh base st kv hkv.1 hinv hst hse hkv.2
      have hall := ih (createStep assoc specs mesh st kv) hse hstep_inv
        (fun p hp => hgood p (List.mem_cons_of_mem _ hp)) hend
      intro p hp
      rcases List.mem_cons.mp hp with h | h
      · subst h
        exact ⟨createLoop_isDef_mono assoc specs mesh rest _ p.2 hpost.1,
          createLoop_chain_mono assoc specs mesh rest _ mesh p.2 hpost.2⟩
      · exact hall p h
    · rw [createLoop_err assoc specs mesh rest _ e hse] at hend
      rw [hse] at hend
      cases hend

theorem createLoop_attachInv (assoc : List Assoc) (specs : List (String × SpecVal))
    (mesh : String) (base : Scene) (L : List (String × String)) (st : RunSt)
    (hinv : AttachInv base mesh st.scene)
    (hgood : ∀ p ∈ L, good4 assoc p.2) :
    AttachInv base mesh (createLoop assoc specs mesh L st).scene := by
  induction L generalizing st with
  | nil => exact hinv
  | cons kv rest ih =>
    rw [createLoop]
    exact ih _ (attachInv_createStep assoc specs mesh base st kv
      (hgood kv (List.mem_cons_self _ _)) hinv)
      (fun p hp => hgood p (List.mem_cons_of_mem _ hp))

/- ---------------------------------------------------------------- -/
/- Unfolding equations for copy_deformers and reconcileMesh.         -/
/- ---------------------------------------------------------------- -/

theorem copy_deformers_nonempty (target source : String) (types stack : List String)
    (s : Scene) (h : stack ≠ []) :
    copy_deformers target source types stack s =
      scanStack target stack.reverse (CopyRes.mk s none [] []) := by
  have hni : ¬(stack.isEmpty = true) := by
    simp only [List.isEmpty_iff]
    exact h
  unfold copy_deformers
  rw [if_neg hni]

theorem mem_zip_of_mem_right {l1 l2 : List String} (h : l1.length = l2.length)
    {d : String} (hd : d ∈ l2) : ∃ a, (a, d) ∈ l1.zip l2 := by
  induction l2 generalizing l1 with
  | nil => cases hd
  | cons b t ih =>
    cases l1 with
    | nil => cases h
    | cons a1 t1 =>
      rcases List.mem_cons.mp hd with h1 | h1
      · subst h1
        exact ⟨a1, by rw [List.zip_cons_cons]; exact List.mem_cons_self _ _⟩
      · have hlen : t1.length = t.length := by simpa using h
        obtain ⟨a, ha⟩ := ih hlen h1
        exact ⟨a, by rw [List.zip_cons_cons]; exact List.mem_cons_of_mem _ ha⟩

theorem forall2_zip_mem {R : String → String → Prop} {l1 l2 : List String}
    (h : List.Forall₂ R l1 l2) {p : String × String} (hp : p ∈ l1.zip l2) :
    R p.1 p.2 := by
  induction h with
  | nil => exact absurd hp (List.not_mem_nil p)
  | cons hx hr ih =>
    rw [List.zip_cons_cons] at hp
    rcases List.mem_cons.mp hp with h1 | h1
    · subst h1
      exact hx
    · exact ih h1

theorem reconcileMesh_err_some (assoc : List Assoc) (specs : List (String × SpecVal))
    (mesh : String) (s : Scene) (dtv : Option String) (e : String)
    (hcr : (copy_deformers mesh "" ["cluster", "ffd"] (specs.map Prod.fst) s).err = some e) :
    reconcileMesh assoc specs mesh (RunSt.mk s dtv none) =
      RunSt.mk (copy_deformers mesh "" ["cluster", "ffd"] (specs.map Prod.fst) s).scene
        dtv (some e) := by
  unfold reconcileMesh
  simp only [hcr]

theorem reconcileMesh_err_none (assoc : List Assoc) (specs : List (String × SpecVal))
    (mesh : String) (s : Scene) (dtv : Option String)
    (hcr : (copy_deformers mesh "" ["cluster", "ffd"] (specs.map Prod.fst) s).err = none) :
    reconcileMesh assoc specs mesh (RunSt.mk s dtv none) =
      createLoop assoc specs mesh
        ((copy_deformers mesh "" ["cluster", "ffd"] (specs.map Prod.fst) s).raw_missing.zip
          (copy_deformers mesh "" ["cluster", "ffd"] (specs.map Prod.fst) s).missing)
        (RunSt.mk
          (copy_deformers mesh "" ["cluster", "ffd"] (specs.map Prod.fst) s).scene
          dtv none) := by
  unfold reconcileMesh
  simp only [hcr]

/-- C1 (amended): when every template of a non-empty spec stack expands to
names whose suffixes the association table maps to cluster / ffd /
blendShape / skinCluster, and a first reconciliation run of a mesh succeeds,
a second run immediately after is a no-op: it returns the same scene with no
error, and its scan records no spec as missing (every spec is skipped), so no
duplicate deformers are created. -/
theorem reconcile_idempotent (assoc : List Assoc) (specs : List (String × SpecVal))
    (mesh : String) (s : Scene)
    (hne : specs ≠ [])
    (hg : ∀ p ∈ specs, ∀ d ∈ expandDeformer p.1 mesh, good4 assoc d)
    (hrun : (reconcileMesh assoc specs mesh (RunSt.mk s none none)).err = none) :
    reconcileMesh assoc specs mesh
        (RunSt.mk (reconcileMesh assoc specs mesh (RunSt.mk s none none)).scene none none)
      = RunSt.mk (reconcileMesh assoc specs mesh (RunSt.mk s none none)).scene none none ∧
    (copy_deformers mesh "" ["cluster", "ffd"] (specs.map Prod.fst)
      (reconcileMesh assoc specs mesh (RunSt.mk s none none)).scene).missing = [] := by
  have hkeys : specs.map Prod.fst ≠ [] := by
    intro hmap
    exact hne (List.map_eq_nil_iff.mp hmap)
  have hcr0 := copy_deformers_nonempty mesh "" ["cluster", "ffd"] (specs.map Prod.fst) s hkeys
  have hcrerr : (copy_deformers mesh "" ["cluster", "ffd"] (specs.map Prod.fst) s).err
      = none := by
    rcases hx : (copy_deformers mesh "" ["cluster", "ffd"] (specs.map Prod.fst) s).err
      with _ | e
    · rfl
    · rw [reconcileMesh_err_some assoc specs mesh s none e hx] at hrun
      simp at hrun
  have hrm := reconcileMesh_err_none assoc specs mesh s none hcrerr
  -- scan facts
  have hscan_err : (scanStack mesh (specs.map Prod.fst).reverse
      (CopyRes.mk s none [] [])).err = none := by
    rw [← hcr0]
    exact hcrerr
  have hF3 : List.Forall₂
      (fun k d => k ∈ specs.map Prod.fst ∧ d ∈ expandDeformer k mesh)
      (copy_deformers mesh "" ["cluster", "ffd"] (specs.map Prod.fst) s).raw_missing
      (copy_deformers mesh "" ["cluster", "ffd"] (specs.map Prod.fst) s).missing := by
    rw [hcr0]
    exact scanStack_forall2 _ mesh (specs.map Prod.fst).reverse (CopyRes.mk s none [] [])
      List.Forall₂.nil
      (fun k hk d hd => ⟨List.mem_reverse.mp hk, hd⟩)
  have hF2 : ∀ d ∈ (copy_deformers mesh "" ["cluster", "ffd"]
      (specs.map Prod.fst) s).missing,
      objExists (copy_deformers mesh "" ["cluster", "ffd"]
        (specs.map Prod.fst) s).scene d = false := by
    intro d hd
    rw [hcr0] at hd ⊢
    rcases scanStack_missing_spec mesh (specs.map Prod.fst).reverse
      (CopyRes.mk s none [] []) d hd with h1 | ⟨h2, _⟩
    · exact absurd h1 (List.not_mem_nil d)
    · rw [scanStack_objExists_eq]
      exact h2
  have hgoodpairs : ∀ p ∈ (copy_deformers mesh "" ["cluster", "ffd"]
      (specs.map Prod.fst) s).raw_missing.zip
        (copy_deformers mesh "" ["cluster", "ffd"] (specs.map Prod.fst) s).missing,
      good4 assoc p.2 ∧
      objExists (copy_deformers mesh "" ["cluster", "ffd"]
        (specs.map Prod.fst) s).scene p.2 = false := by
    intro p hp
    have hR := forall2_zip_mem hF3 hp
    constructor
    · obtain ⟨q, hq, hq1⟩ := List.mem_map.mp hR.1
      exact hg q hq p.2 (by rw [hq1]; exact hR.2)
    · exact hF2 p.2 (List.of_mem_zip hp).2
  have hinv0 : AttachInv
      (copy_deformers mesh "" ["cluster", "ffd"] (specs.map Prod.fst) s).scene mesh
      (copy_deformers mesh "" ["cluster", "ffd"] (specs.map Prod.fst) s).scene :=
    ⟨rfl, fun n hn => Or.inl hn⟩
  have hend : (createLoop assoc specs mesh
      ((copy_deformers mesh "" ["cluster", "ffd"] (specs.map Prod.fst) s).raw_missing.zip
        (copy_deformers mesh "" ["cluster", "ffd"] (specs.map Prod.fst) s).missing)
      (RunSt.mk (copy_deformers mesh "" ["cluster", "ffd"]
        (specs.map Prod.fst) s).scene none none)).err = none := by
    rw [← hrm]
    exact hrun
  have hposts := createLoop_post assoc specs mesh
    (copy_deformers mesh "" ["cluster", "ffd"] (specs.map Prod.fst) s).scene
    ((copy_deformers mesh "" ["cluster", "ffd"] (specs.map Prod.fst) s).raw_missing.zip
      (copy_deformers mesh "" ["cluster", "ffd"] (specs.map Prod.fst) s).missing)
    (RunSt.mk (copy_deformers mesh "" ["cluster", "ffd"]
      (specs.map Prod.fst) s).scene none none)
    rfl hinv0 hgoodpairs hend
  -- all expansions are deformers attached to the mesh in the final scene
  have hALL : ∀ k ∈ specs.map Prod.fst, ∀ d ∈ expandDeformer k mesh,
      isDef (reconcileMesh assoc specs mesh (RunSt.mk s none none)).scene d = true ∧
      d ∈ getChain (reconcileMesh assoc specs mesh (RunSt.mk s none none)).scene mesh := by
    intro k hk d hd
    have hcov : d ∈ (copy_deformers mesh "" ["cluster", "ffd"]
        (specs.map Prod.fst) s).missing ∨
        (isDef (copy_deformers mesh "" ["cluster", "ffd"]
          (specs.map Prod.fst) s).scene d = true ∧
          d ∈ getChain (copy_deformers mesh "" ["cluster", "ffd"]
            (specs.map Prod.fst) s).scene mesh) := by
      rw [hcr0]
      exact scanStack_cover mesh (specs.map Prod.fst).reverse (CopyRes.mk s none [] [])
        hscan_err k (List.mem_reverse.mpr hk) d hd
    rw [hrm]
    rcases hcov with h1 | ⟨h2, h3⟩
    · obtain ⟨a, ha⟩ := mem_zip_of_mem_right hF3.length_eq h1
      have := hposts (a, d) ha
      exact this
    · constructor
      · exact createLoop_isDef_mono assoc specs mesh _ _ d h2
      · exact createLoop_chain_mono assoc specs mesh _ _ mesh d h3
  -- second run is a no-op
  have hscan2 : scanStack mesh (specs.map Prod.fst).reverse
      (CopyRes.mk (reconcileMesh assoc specs mesh (RunSt.mk s none none)).scene
        none [] []) =
      CopyRes.mk (reconcileMesh assoc specs mesh (RunSt.mk s none none)).scene
        none [] [] := by
    apply scanStack_nop
    intro k hk d hd
    exact hALL k (List.mem_reverse.mp hk) d hd
  have hcr2 : copy_deformers mesh "" ["cluster", "ffd"] (specs.map Prod.fst)
      (reconcileMesh assoc specs mesh (RunSt.mk s none none)).scene =
      CopyRes.mk (reconcileMesh assoc specs mesh (RunSt.mk s none none)).scene
        none [] [] := by
    rw [copy_deformers_nonempty mesh "" ["cluster", "ffd"] (specs.map Prod.fst) _ hkeys]
    exact hscan2
  constructor
  · rw [reconcileMesh_err_none assoc specs mesh _ none (by rw [hcr2])]
    rw [hcr2]
    rfl
  · rw [hcr2]


theorem createLoop_fresh (assoc : List Assoc) (specs : List (String × SpecVal))
    (mesh : String) (L : List (String × String)) (st : RunSt)
    (hst : st.err = none)
    (hnd : (L.map Prod.snd).Nodup)
    (hf : ∀ p ∈ L, stepOk assoc specs p ∧ objExists st.scene p.2 = false ∧
      p.2 ∉ getChain st.scene mesh) :
    (createLoop assoc specs mesh L st).err = none ∧
    getChain (createLoop assoc specs mesh L st).scene mesh =
      (L.map Prod.snd).reverse ++ getChain st.scene mesh ∧
    (∀ n, objExists (createLoop assoc specs mesh L st).scene n = true ↔
      (objExists st.scene n = true ∨ n ∈ L.map Prod.snd)) := by
  induction L generalizing st with
  | nil => exact ⟨hst, by simp [createLoop], fun n => by simp [createLoop]⟩
  | cons kv rest ih =>
    obtain ⟨hok, hex, hch⟩ := hf kv (List.mem_cons_self _ _)
    have hstep : ∃ sc dtv,
        createStep assoc specs mesh st kv = RunSt.mk sc dtv none ∧
        getChain sc mesh = kv.2 :: getChain st.scene mesh ∧
        (∀ n, objExists sc n = (decide (kv.2 = n) || objExists st.scene n)) := by
      rcases hok with ⟨hlk, j, uh, env, hsp⟩ | ⟨t, hlk, ht, hsp⟩
      · rw [createStep_none_eq assoc specs mesh st kv "skinCluster" hst hlk,
          createStepT_skin_skin assoc specs mesh st kv j uh env hsp,
          bind_create_eq kv.2 mesh j uh env st.scene hex]
        refine ⟨setEnvelope (addDefNode st.scene kv.2
          (DefInfo.mk "skinCluster" j 1 (!uh)) [mesh]) kv.2 env,
          some "skinCluster", rfl, ?_, ?_⟩
        · rw [getChain_setEnvelope]
          exact getChain_addDefNode_mem st.scene kv.2 _ [mesh] mesh (by simp) hch
        · intro n
          rw [objExists_setEnvelope, objExists_addDefNode]
      · have h0 : t ≠ "" := by rcases ht with h | h | h <;> subst h <;> decide
        have h1 : t ≠ "skinCluster" := by rcases ht with h | h | h <;> subst h <;> decide
        rcases hsp with hsp | ⟨so, hsp⟩
        · rw [createStep_none_eq assoc specs mesh st kv t hst hlk,
            createStepT_ns_noneV assoc specs mesh st kv t h0 h1 hsp,
            create_deformer_clusterish assoc kv.2 [mesh] st.scene t ht hlk hex]
          refine ⟨addDefNode st.scene kv.2 (DefInfo.mk t [] 1 false) [mesh],
            some t, rfl, ?_, ?_⟩
          · exact getChain_addDefNode_mem st.scene kv.2 _ [mesh] mesh (by simp) hch
          · intro n
            exact objExists_addDefNode st.scene kv.2 _ [mesh] n
        · rw [createStep_none_eq assoc specs mesh st kv t hst hlk,
            createStepT_ns_src assoc specs mesh st kv t so h0 h1 hsp,
            create_deformer_clusterish assoc kv.2 [so, mesh] st.scene t ht hlk hex]
          refine ⟨addDefNode st.scene kv.2 (DefInfo.mk t [] 1 false) [so, mesh],
            some t, rfl, ?_, ?_⟩
          · exact getChain_addDefNode_mem st.scene kv.2 _ [so, mesh] mesh (by simp) hch
          · intro n
            exact objExists_addDefNode st.scene kv.2 _ [so, mesh] n
    obtain ⟨sc, dtv, hse, hsc_chain, hsc_obj⟩ := hstep
    rw [createLoop, hse]
    have hnd' : (rest.map Prod.snd).Nodup := (List.nodup_cons.mp hnd).2
    have hkvnot : kv.2 ∉ rest.map Prod.snd := (List.nodup_cons.mp hnd).1
    have hf' : ∀ p ∈ rest, stepOk assoc specs p ∧
        objExists (RunSt.mk sc dtv none).scene p.2 = false ∧
        p.2 ∉ getChain (RunSt.mk sc dtv none).scene mesh := by
      intro p hp
      obtain ⟨ho2, he2, hc2⟩ := hf p (List.mem_cons_of_mem _ hp)
      have hpne : kv.2 ≠ p.2 := by
        intro hq
        exact hkvnot (hq ▸ List.mem_map_of_mem Prod.snd hp)
      refine ⟨ho2, ?_, ?_⟩
      · show objExists sc p.2 = false
        rw [hsc_obj p.2]
        simp [hpne, he2]
      · show p.2 ∉ getChain sc mesh
        rw [hsc_chain]
        intro hmem
        rcases List.mem_cons.mp hmem with hq | hq
        · exact hpne hq.symm
        · exact hc2 hq
    obtain ⟨hih_err, hih_chain, hih_obj⟩ := ih (RunSt.mk sc dtv none) rfl hnd' hf'
    refine ⟨hih_err, ?_, ?_⟩
    · rw [hih_chain]
      show (rest.map Prod.snd).reverse ++ getChain sc mesh = _
      rw [hsc_chain, List.map_cons, List.reverse_cons, List.append_assoc,
        List.singleton_append]
    · intro n
      rw [hih_obj n]
      show (objExists sc n = true ∨ n ∈ rest.map Prod.snd) ↔ _
      rw [hsc_obj n]
      simp only [Bool.or_eq_true, decide_eq_true_eq, List.map_cons, List.mem_cons]
      tauto

theorem expandDeformer_single (d t : String) (h : strStartsWith d anonPh = false) :
    expandDeformer d t = [resolveTemplate d t] := by
  unfold expandDeformer resolveTemplate
  rw [h, if_neg Bool.false_ne_true]
  by_cases h1 : strStartsWith d namePh = true
  · rw [if_pos h1, if_pos h1]
  · rw [if_neg h1, if_neg h1]
    by_cases h2 : strStartsWith d sidePh = true
    · rw [if_pos h2, if_pos h2]
    · rw [if_neg h2, if_neg h2]

theorem flatten_singleton_map {α β : Type} (f : α → β) (l : List α) :
    (l.map (fun a => [f a])).flatten = l.map f := by
  induction l with
  | nil => rfl
  | cons a r ih => simp [ih]

theorem zip_self_map {α β : Type} (l : List α) (f : α → β) :
    l.zip (l.map f) = l.map (fun a => (a, f a)) := by
  induction l with
  | nil => rfl
  | cons a r ih => simp [List.zip_cons_cons, ih]

theorem lookupL_mem_keys {α : Type} (l : List (String × α)) (k : String)
    (h : k ∈ l.map Prod.fst) : ∃ v, lookupL l k = some v ∧ (k, v) ∈ l := by
  induction l with
  | nil => cases h
  | cons p r ih =>
    by_cases hp : p.1 = k
    · refine ⟨p.2, by unfold lookupL; rw [if_pos hp], ?_⟩
      rw [← hp]
      simp
    · have h2 : k ∈ r.map Prod.fst := by
        rcases List.mem_map.mp h with ⟨q, hq, hq1⟩
        rcases List.mem_cons.mp hq with h3 | h3
        · subst h3
          exact absurd hq1 hp
        · rw [← hq1]
          exact List.mem_map_of_mem Prod.fst h3
      obtain ⟨v, hv1, hv2⟩ := ih h2
      exact ⟨v, by unfold lookupL; rw [if_neg hp]; exact hv1,
        List.mem_cons_of_mem _ hv2⟩


theorem stepOk_of_wellformed (assoc : List Assoc) (specs : List (String × SpecVal))
    (mesh k : String) (v : SpecVal)
    (hw : specWellFormed assoc mesh (k, v) = true)
    (hl : lookupL specs k = some v) :
    stepOk assoc specs (k, resolveTemplate k mesh) := by
  unfold specWellFormed at hw
  rcases hlk : lookupSuffix assoc (lastToken (resolveTemplate k mesh)) with _ | t
  · rw [hlk] at hw
    cases hw
  · rw [hlk] at hw
    simp only [] at hw
    by_cases hts : t = "skinCluster"
    · rw [if_pos hts] at hw
      cases v with
      | noneV => cases hw
      | src so => cases hw
      | skin j uh env =>
        subst hts
        exact Or.inl ⟨hlk, j, uh, env, hl⟩
    · rw [if_neg hts] at hw
      simp only [Bool.and_eq_true, Bool.or_eq_true, decide_eq_true_eq,
        Bool.not_eq_true'] at hw
      refine Or.inr ⟨t, hlk, ?_, ?_⟩
      · tauto
      · cases v with
        | noneV => exact Or.inl hl
        | src so => exact Or.inr ⟨so, hl⟩
        | skin j uh env => cases hw.2

/-- C2: on a mesh with an empty deformer chain, when every key of a non-empty
spec stack is a non-side template resolving to a fresh, distinct name whose
suffix type agrees with its parameter dict, reconciliation walks the stack in
reverse — the last-specified deformer is created first — and the resulting
chain (downstream-first) lists the resolved names in exactly the stack's
order. -/
theorem reconcile_order (assoc : List Assoc) (specs : List (String × SpecVal))
    (mesh : String) (s : Scene)
    (hne : specs ≠ [])
    (h0 : getChain s mesh = [])
    (h1 : ∀ p ∈ specs, strStartsWith p.1 anonPh = false)
    (h2 : (specs.map (fun p => resolveTemplate p.1 mesh)).Nodup)
    (h3 : ∀ p ∈ specs, objExists s (resolveTemplate p.1 mesh) = false)
    (h4 : ∀ p ∈ specs, specWellFormed assoc mesh p = true) :
    (reconcileMesh assoc specs mesh (RunSt.mk s none none)).err = none ∧
    getChain (reconcileMesh assoc specs mesh (RunSt.mk s none none)).scene mesh =
      specs.map (fun p => resolveTemplate p.1 mesh) := by
  have hkeys : specs.map Prod.fst ≠ [] := by
    intro hmap
    exact hne (List.map_eq_nil_iff.mp hmap)
  have hexp : ∀ k ∈ specs.map Prod.fst,
      expandDeformer k mesh = [resolveTemplate k mesh] := by
    intro k hk
    rcases List.mem_map.mp hk with ⟨q, hq, hq1⟩
    rw [← hq1]
    exact expandDeformer_single q.1 mesh (h1 q hq)
  have hobj : ∀ k ∈ specs.map Prod.fst,
      objExists s (resolveTemplate k mesh) = false := by
    intro k hk
    rcases List.mem_map.mp hk with ⟨q, hq, hq1⟩
    rw [← hq1]
    exact h3 q hq
  have hfresh : ∀ k ∈ (specs.map Prod.fst).reverse, ∀ d ∈ expandDeformer k mesh,
      objExists (CopyRes.mk s none ([] : List String) ([] : List String)).scene d
        = false := by
    intro k hk d hd
    have hk2 := List.mem_reverse.mp hk
    rw [hexp k hk2] at hd
    have hd2 : d = resolveTemplate k mesh := by simpa using hd
    subst hd2
    exact hobj k hk2
  have hscan := scanStack_fresh mesh (specs.map Prod.fst).reverse
    (CopyRes.mk s none [] []) rfl hfresh
  have hmapexp : (((specs.map Prod.fst).reverse.map
      (fun k => expandDeformer k mesh))).flatten =
      (specs.map Prod.fst).reverse.map (fun k => resolveTemplate k mesh) := by
    rw [List.map_congr_left (fun k hk => hexp k (List.mem_reverse.mp hk))]
    exact flatten_singleton_map _ _
  have hmapraw : (((specs.map Prod.fst).reverse.map
      (fun k => (expandDeformer k mesh).map (fun _ => k)))).flatten =
      (specs.map Prod.fst).reverse := by
    have hcg : ∀ k ∈ (specs.map Prod.fst).reverse,
        (expandDeformer k mesh).map (fun _ => k) = [k] := by
      intro k hk
      rw [hexp k (List.mem_reverse.mp hk)]
      rfl
    rw [List.map_congr_left hcg]
    have hfs := flatten_singleton_map (fun k : String => k) (specs.map Prod.fst).reverse
    rw [hfs]
    exact List.map_id _
  have hcr : copy_deformers mesh "" ["cluster", "ffd"] (specs.map Prod.fst) s =
      CopyRes.mk s none
        ((specs.map Prod.fst).reverse.map (fun k => resolveTemplate k mesh))
        (specs.map Prod.fst).reverse := by
    rw [copy_deformers_nonempty mesh "" ["cluster", "ffd"] (specs.map Prod.fst) s hkeys,
      hscan]
    simp only [List.nil_append]
    rw [hmapexp, hmapraw]
  have hloop := createLoop_fresh assoc specs mesh
    ((specs.map Prod.fst).reverse.map (fun k => (k, resolveTemplate k mesh)))
    (RunSt.mk s none none) rfl
    (by
      rw [List.map_map, List.map_reverse]
      refine List.nodup_reverse.mpr ?_
      rw [List.map_map]
      exact h2)
    (by
      intro p hp
      rcases List.mem_map.mp hp with ⟨k, hk, hk1⟩
      subst hk1
      have hk2 := List.mem_reverse.mp hk
      obtain ⟨v, hv1, hv2⟩ := lookupL_mem_keys specs k hk2
      refine ⟨stepOk_of_wellformed assoc specs mesh k v (h4 (k, v) hv2) hv1, ?_, ?_⟩
      · exact hobj k hk2
      · show resolveTemplate k mesh ∉ getChain s mesh
        rw [h0]
        exact List.not_mem_nil _)
  obtain ⟨he, hc, _⟩ := hloop
  have hrm := reconcileMesh_err_none assoc specs mesh s none (by rw [hcr])
  rw [hrm, hcr]
  dsimp only
  rw [zip_self_map]
  refine ⟨he, ?_⟩
  rw [hc, h0, List.append_nil, List.map_map, List.map_reverse, List.reverse_reverse,
    List.map_map]
  rfl

/- ---------------------------------------------------------------- -/
/- Frame lemmas through create_all_deformers.                        -/
/- ---------------------------------------------------------------- -/

theorem copy_deformers_chain_suffix (target source : String) (types stack : List String)
    (s : Scene) (m : String) :
    (getChain s m).IsSuffix
      (getChain (copy_deformers target source types stack s).scene m) := by
  unfold copy_deformers
  by_cases he : stack.isEmpty = true
  · rw [if_pos he]
    rcases hld : list_deformers s source types with e | pr
    · simp only [hld]
      exact List.suffix_refl _
    · simp only [hld]
      exact scanStack_chain_suffix target pr.1.reverse (CopyRes.mk s none [] []) m
  · rw [if_neg he]
    exact scanStack_chain_suffix target stack.reverse (CopyRes.mk s none [] []) m

theorem reconcileMesh_chain_suffix (assoc : List Assoc) (specs : List (String × SpecVal))
    (mesh : String) (st : RunSt) (m : String) :
    (getChain st.scene m).IsSuffix
      (getChain (reconcileMesh assoc specs mesh st).scene m) := by
  obtain ⟨s, dtv, err⟩ := st
  cases err with
  | some e => exact List.suffix_refl _
  | none =>
    rcases hcr : (copy_deformers mesh "" ["cluster", "ffd"] (specs.map Prod.fst) s).err
      with _ | e
    · rw [reconcileMesh_err_none assoc specs mesh s dtv hcr]
      exact (copy_deformers_chain_suffix mesh "" ["cluster", "ffd"]
        (specs.map Prod.fst) s m).trans
        (createLoop_chain_suffix assoc specs mesh
          ((copy_deformers mesh "" ["cluster", "ffd"]
            (specs.map Prod.fst) s).raw_missing.zip
            (copy_deformers mesh "" ["cluster", "ffd"] (specs.map Prod.fst) s).missing)
          (RunSt.mk (copy_deformers mesh "" ["cluster", "ffd"]
            (specs.map Prod.fst) s).scene dtv none) m)
    · rw [reconcileMesh_err_some assoc specs mesh s dtv e hcr]
      exact copy_deformers_chain_suffix mesh "" ["cluster", "ffd"] (specs.map Prod.fst) s m

theorem reconcileMeshes_chain_suffix (assoc : List Assoc)
    (specs : List (String × SpecVal)) (ms : List String) (st : RunSt) (m : String) :
    (getChain st.scene m).IsSuffix
      (getChain (reconcileMeshes assoc specs ms st).scene m) := by
  induction ms generalizing st with
  | nil => exact List.suffix_refl _
  | cons mh rest ih =>
    rw [reconcileMeshes]
    exact (reconcileMesh_chain_suffix assoc specs mh st m).trans (ih _)

theorem processObj_chain_suffix (assoc : List Assoc) (specs : List (String × SpecVal))
    (obj : String) (st : RunSt) (m : String) :
    (getChain st.scene m).IsSuffix
      (getChain (processObj assoc specs obj st).scene m) := by
  obtain ⟨s, dtv, err⟩ := st
  cases err with
  | some e => exact List.suffix_refl _
  | none =>
    rcases hgc : get_children s obj with e | cs
    · have heq : processObj assoc specs obj (RunSt.mk s dtv none) =
          RunSt.mk s dtv (some e) := by
        unfold processObj
        simp only [hgc]
      rw [heq]
    · have heq : processObj assoc specs obj (RunSt.mk s dtv none) =
          reconcileMeshes assoc specs (if cs.isEmpty then [obj] else cs)
            (RunSt.mk s dtv none) := by
        unfold processObj
        simp only [hgc]
      rw [heq]
      exact reconcileMeshes_chain_suffix assoc specs _ _ m

theorem processObjs_chain_suffix (assoc : List Assoc) (specs : List (String × SpecVal))
    (objs : List String) (st : RunSt) (m : String) :
    (getChain st.scene m).IsSuffix
      (getChain (processObjs assoc specs objs st).scene m) := by
  induction objs generalizing st with
  | nil => exact List.suffix_refl _
  | cons o rest ih =>
    rw [processObjs]
    exact (processObj_chain_suffix assoc specs o st m).trans (ih _)

theorem caRun_chain_suffix (assoc : List Assoc)
    (data : List (String × List (String × SpecVal))) (st : RunSt) (m : String) :
    (getChain st.scene m).IsSuffix (getChain (caRun assoc data st).scene m) := by
  induction data generalizing st with
  | nil => exact List.suffix_refl _
  | cons nd rest ih =>
    rw [caRun]
    exact (processObjs_chain_suffix assoc nd.2 (expandNode nd.1) st m).trans (ih _)

/- ---------------------------------------------------------------- -/
/- The claims.                                                       -/
/- ---------------------------------------------------------------- -/

/-- C1 counterexample to the literal claim: with a stack whose first template
has an unmapped suffix, the first reconciliation run succeeds (the unmapped
spec silently reuses the stale `deformer_type` and `create_deformer` then
creates nothing), but a second run immediately after raises UnboundLocalError
instead of skipping every spec, and its scan still reports that spec as
missing. -/
theorem reconcile_twice_counterexample :
    (reconcileMesh xAssoc xSpecs "M_face_mesh" (RunSt.mk xScene none none)).err = none ∧
    (reconcileMesh xAssoc xSpecs "M_face_mesh"
      (RunSt.mk (reconcileMesh xAssoc xSpecs "M_face_mesh"
        (RunSt.mk xScene none none)).scene none none)).err
      = some "UnboundLocalError: deformer_type" ∧
    (copy_deformers "M_face_mesh" "" ["cluster", "ffd"] (xSpecs.map Prod.fst)
      (reconcileMesh xAssoc xSpecs "M_face_mesh" (RunSt.mk xScene none none)).scene).missing
      = ["M_b_weird"] := by
  decide

/-- C1 witness input: a well-formed three-spec stack on a fresh mesh. -/
theorem reconcile_idempotent_witness :
    reconcileMesh tAssoc tSpecs "M_face_mesh"
        (RunSt.mk (reconcileMesh tAssoc tSpecs "M_face_mesh"
          (RunSt.mk tScene none none)).scene none none)
      = RunSt.mk (reconcileMesh tAssoc tSpecs "M_face_mesh"
          (RunSt.mk tScene none none)).scene none none ∧
    (copy_deformers "M_face_mesh" "" ["cluster", "ffd"] (tSpecs.map Prod.fst)
      (reconcileMesh tAssoc tSpecs "M_face_mesh" (RunSt.mk tScene none none)).scene).missing
      = [] :=
  reconcile_idempotent tAssoc tSpecs "M_face_mesh" tScene (by decide)
    (by unfold good4; decide) (by decide)

/-- C2 witness input: the same well-formed stack; the resulting chain lists
the resolved names in stack order. -/
theorem reconcile_order_witness :
    (reconcileMesh tAssoc tSpecs "M_face_mesh" (RunSt.mk tScene none none)).err = none ∧
    getChain (reconcileMesh tAssoc tSpecs "M_face_mesh"
        (RunSt.mk tScene none none)).scene "M_face_mesh"
      = tSpecs.map (fun p => resolveTemplate p.1 "M_face_mesh") :=
  reconcile_order tAssoc tSpecs "M_face_mesh" tScene (by decide) (by decide)
    (by decide) (by decide) (by decide) (by decide)

/-- C3 (amended): a missing target is handled in two different ways. In
`utils.get_meshes` a non-existing concrete target (other than the special
eyelash substitution) is skipped with no effect and processing continues with
the remaining targets; in `build.create_all_deformers` the `get_children`
call on a missing target raises ValueError, stopping the run with the error
recorded and the scene unmutated. -/
theorem missing_target_skip (assoc : List Assoc) (specs : List (String × SpecVal))
    (s : Scene) (node : String) (rest : List String)
    (h1 : objExists s node = false)
    (h2 : node ≠ "M_eyelash_rig_mesh")
    (h3 : strStartsWith node anonPh = false) :
    gmRun s (node :: rest) = gmRun s rest ∧
    processObj assoc specs node (RunSt.mk s none none) =
      RunSt.mk s none (some "ValueError: No object matches name") := by
  have hexp : expandNode node = [node] := by
    unfold expandNode
    rw [h3, if_neg Bool.false_ne_true]
  have hn : gmNode s node = .ok [] := by
    unfold gmNode
    rw [h1, Bool.not_false, if_pos rfl, if_pos h2]
  have hsd : gmSides s [node] = .ok [] := by
    simp [gmSides, hn]
  have hgc : get_children s node = .error "ValueError: No object matches name" := by
    unfold get_children
    rw [h1, if_neg Bool.false_ne_true]
  constructor
  · rcases hr : gmRun s rest with e | more
    · simp [gmRun, hexp, hsd, hr]
    · simp [gmRun, hexp, hsd, hr]
  · unfold processObj
    simp only [hgc]

/-- C3 counterexample to the literal claim: in `create_all_deformers` a
target that does not resolve to an existing object is fatal for the whole
batch: the run stops with ValueError, and the existing second target never
receives its cluster. -/
theorem missing_target_counterexample :
    objExists xScene "A_missing_grp" = false ∧
    (create_all_deformers xAssoc zData xScene).err
      = some "ValueError: No object matches name" ∧
    (create_all_deformers xAssoc zData xScene).scene = xScene ∧
    lookupL (create_all_deformers xAssoc zData xScene).scene.defs "M_a_cluster"
      = none := by
  decide

/-- C3 witness input: a missing group is skipped by `get_meshes` and raises
in `create_all_deformers`. -/
theorem missing_target_skip_witness :
    gmRun xScene ["A_missing_grp", "M_face_mesh"] = gmRun xScene ["M_face_mesh"] ∧
    processObj xAssoc xSpecs "A_missing_grp" (RunSt.mk xScene none none) =
      RunSt.mk xScene none (some "ValueError: No object matches name") :=
  missing_target_skip xAssoc xSpecs xScene "A_missing_grp" ["M_face_mesh"]
    (by decide) (by decide) (by decide)

/-- C4 (code bug): a missing spec whose suffix has no association is never
reported as unresolvable. The loop silently reuses the stale `deformer_type`
left by the previous iteration — below, "M_b_weird" is created as a
skinCluster with its own joints although its suffix maps to nothing — and
when there is no previous iteration the read raises UnboundLocalError. -/
theorem stale_deformer_type_bug :
    lookupSuffix xAssoc (lastToken "M_b_weird") = none ∧
    (reconcileMesh xAssoc ySpecs "M_face_mesh" (RunSt.mk xScene none none)).err = none ∧
    lookupL (reconcileMesh xAssoc ySpecs "M_face_mesh"
        (RunSt.mk xScene none none)).scene.defs "M_b_weird"
      = some (DefInfo.mk "skinCluster" ["j2"] 1 false) ∧
    (reconcileMesh xAssoc [("M_b_weird", SpecVal.noneV)] "M_face_mesh"
      (RunSt.mk xScene none none)).err = some "UnboundLocalError: deformer_type" := by
  decide

/-- C5: a skinCluster spec is bound create-or-add. When the resolved name
does not yet exist, a new skinCluster is created on the mesh with the spec
joints, the hierarchy flag (as `toSelectedBones = not use_hierarchy`) and the
envelope; when a skinCluster node of that name already exists, the joints are
added as influences instead of creating a duplicate, and the envelope is set
in both cases. -/
theorem bind_skincluster_create_or_add (name mesh : String) (joints : List String)
    (uh : Bool) (env : Int) (s1 s2 : Scene) (info : DefInfo)
    (h1 : objExists s1 name = false)
    (h2 : lookupL s2.defs name = some info)
    (h3 : info.dtype = "skinCluster") :
    bind_skincluster name mesh joints uh env s1 =
      (setEnvelope (addDefNode s1 name (DefInfo.mk "skinCluster" joints 1 (!uh)) [mesh])
        name env, none) ∧
    bind_skincluster name mesh joints uh env s2 =
      (setEnvelope (addInfluences s2 name joints) name env, none) :=
  ⟨bind_create_eq name mesh joints uh env s1 h1,
   bind_add_eq name mesh joints uh env s2 info h2 h3⟩

/-- C5 witness input: a fresh scene and a scene already holding the
skinCluster. -/
theorem bind_skincluster_create_or_add_witness :
    bind_skincluster "M_a_skinCluster" "M_face_mesh" ["j1"] true 1 xScene =
      (setEnvelope (addDefNode xScene "M_a_skinCluster"
        (DefInfo.mk "skinCluster" ["j1"] 1 (!true)) ["M_face_mesh"])
        "M_a_skinCluster" 1, none) ∧
    bind_skincluster "M_a_skinCluster" "M_face_mesh" ["j1"] true 1 skScene =
      (setEnvelope (addInfluences skScene "M_a_skinCluster" ["j1"])
        "M_a_skinCluster" 1, none) :=
  bind_skincluster_create_or_add "M_a_skinCluster" "M_face_mesh" ["j1"] true 1
    xScene skScene (DefInfo.mk "skinCluster" ["j0"] 1 false)
    (by decide) (by decide) (by decide)

/-- C6: when `list_deformers` finds more than one skinCluster on a mesh where
exactly one is expected, and the spec stack names a skinCluster to rename,
the skinCluster step of `rename_scene` raises a hard error for that mesh and
leaves the scene unchanged: it does not guess which skinCluster to rename. -/
theorem ambiguous_skincluster_error (specs : List (String × SpecVal)) (mesh : String)
    (s : Scene) (pr : List String × List String) (raw : String)
    (hld : list_deformers s mesh ["skinCluster"] = .ok pr)
    (hlen : pr.1.length > 1)
    (hfs : findSkinKey specs = some raw) :
    rename_scene_skin_step specs mesh s =
      (s, some "RuntimeError: One skinCluster is expected") := by
  have hne : ¬(pr.1.isEmpty = true) := by
    rw [List.isEmpty_iff]
    intro h
    rw [h] at hlen
    exact absurd hlen (by decide)
  unfold rename_scene_skin_step
  simp only [hld]
  rw [if_neg hne]
  simp only [hfs]
  rw [if_pos hlen]

/-- C6 witness input: two skinClusters attached to the face mesh. -/
theorem ambiguous_skincluster_error_witness :
    rename_scene_skin_step vSpecs "M_face_mesh" vScene =
      (vScene, some "RuntimeError: One skinCluster is expected") :=
  ambiguous_skincluster_error vSpecs "M_face_mesh" vScene
    (["skinA", "skinB"], ["skinCluster", "skinCluster"]) "M_face_mesh_skinCluster"
    (by rfl) (by decide) (by decide)

/-- C7 counterexample to the literal claim: a pre-existing cluster named by
the stack but not yet attached to the mesh is attached during the scan, so
the chain changes although no spec was found missing — the chain changes are
not only the creations of missing specs. -/
theorem chain_attach_counterexample :
    (create_all_deformers xAssoc wData wScene).err = none ∧
    (copy_deformers "M_face_mesh" "" ["cluster", "ffd"] ["M_x_cluster"] wScene).missing
      = [] ∧
    getChain wScene "M_face_mesh" = [] ∧
    getChain (create_all_deformers xAssoc wData wScene).scene "M_face_mesh"
      = ["M_x_cluster"] := by
  decide

/-- C7 (amended): reconciliation never deletes existing deformers from a
mesh chain and never reorders them — after `create_all_deformers`, the
previous chain of every mesh is a contiguous suffix of the new chain (all
attachments and creations stack on the downstream end only). -/
theorem create_all_deformers_chain_suffix (assoc : List Assoc)
    (data : List (String × List (String × SpecVal))) (s : Scene) (m : String) :
    (getChain s m).IsSuffix
      (getChain (create_all_deformers assoc data s).scene m) :=
  caRun_chain_suffix assoc data (RunSt.mk s none none) m

/-- C8: a `DEFORMERS_STACK` key starting with the side placeholder expands to
exactly two concrete targets, the L-side and the R-side name, and
`create_all_deformers` processes the two sides one after the other with the
identical spec stack. -/
theorem side_expansion_two_targets (assoc : List Assoc) (specs : List (String × SpecVal))
    (node : String) (h : strStartsWith node anonPh = true) :
    expandNode node = ["L" ++ dropChars 2 node, "R" ++ dropChars 2 node] ∧
    ∀ st, processObjs assoc specs (expandNode node) st =
      processObj assoc specs ("R" ++ dropChars 2 node)
        (processObj assoc specs ("L" ++ dropChars 2 node) st) := by
  have he : expandNode node = ["L" ++ dropChars 2 node, "R" ++ dropChars 2 node] := by
    unfold expandNode
    rw [h, if_pos rfl]
    rfl
  refine ⟨he, fun st => ?_⟩
  rw [he]
  simp only [processObjs]

/-- C8 witness input: a side-placeholder group name. -/
theorem side_expansion_two_targets_witness :
    expandNode "\x7b\x7d_brow_grp"
      = ["L" ++ dropChars 2 "\x7b\x7d_brow_grp", "R" ++ dropChars 2 "\x7b\x7d_brow_grp"] ∧
    processObjs xAssoc xSpecs (expandNode "\x7b\x7d_brow_grp") (RunSt.mk xScene none none)
      = processObj xAssoc xSpecs ("R" ++ dropChars 2 "\x7b\x7d_brow_grp")
          (processObj xAssoc xSpecs ("L" ++ dropChars 2 "\x7b\x7d_brow_grp")
            (RunSt.mk xScene none none)) :=
  ⟨(side_expansion_two_targets xAssoc xSpecs "\x7b\x7d_brow_grp" (by decide)).1,
   (side_expansion_two_targets xAssoc xSpecs "\x7b\x7d_brow_grp" (by decide)).2
     (RunSt.mk xScene none none)⟩

/-- C9: `create_deformer` called without an explicit `deformer_type`, on a
name whose trailing underscore token matches no association suffix, creates
nothing, raises nothing, and returns `None`. -/
theorem create_deformer_unresolved_none (am : List Assoc) (name : String)
    (meshes : List String) (s : Scene)
    (hlk : lookupSuffix am (lastToken name) = none) :
    create_deformer am name meshes none s = CDRes.mk s none none := by
  rw [create_deformer_resolve, hlk]

/-- C9 witness input: an unmapped suffix. -/
theorem create_deformer_unresolved_none_witness :
    create_deformer xAssoc "M_b_weird" ["M_face_mesh"] none xScene =
      CDRes.mk xScene none none :=
  create_deformer_unresolved_none xAssoc "M_b_weird" ["M_face_mesh"] xScene (by decide)

/-- C10: `copy_deformers` returns `missing` and `raw_missing` lists of equal
length in positional correspondence: at every position, the missing name is
one of the side- or name-expansions of the template recorded at the same
position of `raw_missing` — the property `create_all_deformers` relies on
when zipping the two lists. -/
theorem copy_deformers_missing_correspondence (target source : String)
    (types stack : List String) (s : Scene) :
    List.Forall₂ (fun raw d => d ∈ expandDeformer raw target)
      (copy_deformers target source types stack s).raw_missing
      (copy_deformers target source types stack s).missing ∧
    (copy_deformers target source types stack s).raw_missing.length =
      (copy_deformers target source types stack s).missing.length := by
  have key : ∀ L : List String,
      List.Forall₂ (fun raw d => d ∈ expandDeformer raw target)
        (scanStack target L (CopyRes.mk s none [] [])).raw_missing
        (scanStack target L (CopyRes.mk s none [] [])).missing :=
    fun L => scanStack_forall2 _ target L _ List.Forall₂.nil (fun k hk d hd => hd)
  unfold copy_deformers
  by_cases he : stack.isEmpty = true
  · rw [if_pos he]
    rcases hld : list_deformers s source types with e | pr
    · simp only [hld]
      exact ⟨List.Forall₂.nil, trivial⟩
    · simp only [hld]
      exact ⟨key _, (key _).length_eq⟩
  · rw [if_neg he]
    exact ⟨key _, (key _).length_eq⟩
